import Mathlib

/-!
Shallow embedding of the hypothesis-test calculation engine of this
repository.  The repository contains two script variants:

* `src/hypothesis_calc.py` — dual-input-mode procedures taking optional
  summary statistics or raw samples (namespace `HypCalc` below);
* `src/calculadora_testes_hipoteses.py` — per-tail-type procedures taking
  already-parsed numeric inputs (namespace `Calc` below).

Python floats are modelled as exact rationals (`ℚ`).  The external library
functions `np.sqrt` and the `scipy.stats` quantile functions (`t.ppf`,
`norm.ppf`, `chi2.ppf`, `f.ppf`) are modelled as explicit function
parameters of each procedure: the engine treats them as opaque
distribution providers, so every theorem below is stated for an arbitrary
such provider (adding the provider's documented contract, e.g. strict
monotonicity of a quantile in `p`, as an explicit hypothesis where a claim
needs it).  Raised Python exceptions are modelled by `Except ErrKind`,
with one `ErrKind` constructor per distinct raise site / message kind.
-/

/-- Error kinds of the engine, one per distinct raise site: the spec's
taxonomy names for the `ValueError` messages of the two scripts, plus
`typeError` for an unguarded Python `TypeError`. -/
inductive ErrKind where
  | invalidSignificanceLevel
  | insufficientSampleSize
  | invalidSpreadParameter
  | invalidNullVariance
  | invalidProportion
  | incompleteInput
  | invalidTailType
  | typeError
deriving DecidableEq

/-- Tail-type selector of `calculadora_testes_hipoteses.py`
(`bilateral` / `unilateral_dir` / `unilateral_esq`). -/
inductive TipoTeste where
  | bilateral
  | unilateralDir
  | unilateralEsq
deriving DecidableEq

/-- Python `round(x, 2)` (banker's rounding, half to even) on the exact
rational model of a float. -/
def round2 (q : ℚ) : ℚ :=
  let y := 100 * q
  let f : ℤ := ⌊y⌋
  let r := y - f
  let k : ℤ :=
    if r < 1/2 then f
    else if 1/2 < r then f + 1
    else if f % 2 = 0 then f else f + 1
  (k : ℚ) / 100

/-- Python `int(x)` on a float: truncation toward zero. -/
def pyInt (q : ℚ) : ℤ :=
  if 0 ≤ q then ⌊q⌋ else ⌈q⌉

namespace HypCalc

/-- Arithmetic mean `sum(sample) / n` of `calculate_sample_stats`
(src/hypothesis_calc.py). -/
def sampleMean (sample : List ℚ) : ℚ :=
  sample.sum / (sample.length : ℚ)

/-- Sample variance `sum((x - mean) ** 2 for x in sample) / (n - 1)` of
`calculate_sample_stats` (src/hypothesis_calc.py): divisor `n - 1`. -/
def sampleVariance (sample : List ℚ) : ℚ :=
  ((sample.map fun x => (x - sampleMean sample) ^ 2).sum) / ((sample.length : ℚ) - 1)

/-- `calculate_sample_stats(sample)` (src/hypothesis_calc.py): returns
`(mean, S², S, n)`; raises when the sample has fewer than 2 elements.
`sqrt` models `np.sqrt`. -/
def calculate_sample_stats (sqrt : ℚ → ℚ) (sample : List ℚ) :
    Except ErrKind (ℚ × ℚ × ℚ × ℕ) :=
  if sample.length < 2 then .error .insufficientSampleSize
  else .ok (sampleMean sample, sampleVariance sample, sqrt (sampleVariance sample), sample.length)

/-- `validate_alpha(alpha)` (src/hypothesis_calc.py): requires `0 < α < 1`. -/
def validate_alpha (alpha : ℚ) : Except ErrKind Unit :=
  if 0 < alpha ∧ alpha < 1 then .ok () else .error .invalidSignificanceLevel

/-- `validate_sample_size(n)` (src/hypothesis_calc.py): requires `n ≥ 2`. -/
def validate_sample_size (n : ℕ) : Except ErrKind Unit :=
  if n < 2 then .error .insufficientSampleSize else .ok ()

/-- Result mapping of `test_mean_unknown_variance` (src/hypothesis_calc.py). -/
structure MeanTRes where
  x_bar : ℚ
  s : ℚ
  n : ℕ
  mu_0 : ℚ
  alpha : ℚ
  t_calc : ℚ
  df : ℕ
  t_critico_bilateral : ℚ
  t_critico_unilateral : ℚ
deriving DecidableEq

/-- Body of `test_mean_unknown_variance` after the raw-sample
normalisation step (src/hypothesis_calc.py lines 108-135): completeness
check, validation, statistic, critical values. -/
def test_mean_unknown_variance_core (sqrt : ℚ → ℚ) (tppf : ℚ → ℚ → ℚ)
    (x_bar s : Option ℚ) (n : Option ℕ) (mu_0 alpha : Option ℚ) :
    Except ErrKind MeanTRes :=
  match x_bar, s, n, mu_0, alpha with
  | some xb, some sv, some nv, some mu, some a =>
    match validate_alpha a with
    | .error e => .error e
    | .ok _ =>
    match validate_sample_size nv with
    | .error e => .error e
    | .ok _ =>
      let t_calc := (xb - mu) / (sv / sqrt (nv : ℚ))
      let df := nv - 1
      let t_crit_bilateral := tppf (1 - a/2) ((nv : ℚ) - 1)
      let t_crit_unilateral := tppf (1 - a) ((nv : ℚ) - 1)
      .ok { x_bar := round2 xb, s := round2 sv, n := nv, mu_0 := mu, alpha := a,
            t_calc := round2 t_calc, df := df,
            t_critico_bilateral := round2 t_crit_bilateral,
            t_critico_unilateral := round2 t_crit_unilateral }
  | _, _, _, _, _ => .error .incompleteInput

/-- `test_mean_unknown_variance` (src/hypothesis_calc.py): if a raw sample
is supplied, its statistics overwrite the summary arguments. -/
def test_mean_unknown_variance (sqrt : ℚ → ℚ) (tppf : ℚ → ℚ → ℚ)
    (x_bar s : Option ℚ) (n : Option ℕ) (mu_0 alpha : Option ℚ)
    (sample : Option (List ℚ)) : Except ErrKind MeanTRes :=
  match sample with
  | some smp =>
    match calculate_sample_stats sqrt smp with
    | .error e => .error e
    | .ok (m, _v, sd, cnt) =>
      test_mean_unknown_variance_core sqrt tppf (some m) (some sd) (some cnt) mu_0 alpha
  | none => test_mean_unknown_variance_core sqrt tppf x_bar s n mu_0 alpha

/-- Result mapping of `test_diff_means_equal_variances` (src/hypothesis_calc.py). -/
structure DiffMeansRes where
  x_bar_1 : ℚ
  x_bar_2 : ℚ
  s_sq_1 : ℚ
  s_sq_2 : ℚ
  n_1 : ℕ
  n_2 : ℕ
  alpha : ℚ
  s_p_sq : ℚ
  s_p : ℚ
  t_calc : ℚ
  df : ℕ
  t_critico_bilateral : ℚ
  t_critico_unilateral : ℚ
deriving DecidableEq

/-- Body of `test_diff_means_equal_variances` after the raw-sample
normalisation step (src/hypothesis_calc.py lines 167-203). -/
def test_diff_means_equal_variances_core (sqrt : ℚ → ℚ) (tppf : ℚ → ℚ → ℚ)
    (x_bar_1 x_bar_2 s_sq_1 s_sq_2 : Option ℚ) (n_1 n_2 : Option ℕ)
    (alpha : Option ℚ) : Except ErrKind DiffMeansRes :=
  match x_bar_1, x_bar_2, s_sq_1, s_sq_2, n_1, n_2, alpha with
  | some x1, some x2, some v1, some v2, some m1, some m2, some a =>
    match validate_alpha a with
    | .error e => .error e
    | .ok _ =>
    match validate_sample_size m1 with
    | .error e => .error e
    | .ok _ =>
    match validate_sample_size m2 with
    | .error e => .error e
    | .ok _ =>
      let s_p_sq := (((m1 : ℚ) - 1) * v1 + ((m2 : ℚ) - 1) * v2) / ((m1 : ℚ) + (m2 : ℚ) - 2)
      let s_p := sqrt s_p_sq
      let t_calc := (x1 - x2) / (s_p * sqrt (1/(m1 : ℚ) + 1/(m2 : ℚ)))
      let df := m1 + m2 - 2
      let dfq := (m1 : ℚ) + (m2 : ℚ) - 2
      .ok { x_bar_1 := round2 x1, x_bar_2 := round2 x2,
            s_sq_1 := round2 v1, s_sq_2 := round2 v2,
            n_1 := m1, n_2 := m2, alpha := a,
            s_p_sq := round2 s_p_sq, s_p := round2 s_p,
            t_calc := round2 t_calc, df := df,
            t_critico_bilateral := round2 (tppf (1 - a/2) dfq),
            t_critico_unilateral := round2 (tppf (1 - a) dfq) }
  | _, _, _, _, _, _, _ => .error .incompleteInput

/-- `test_diff_means_equal_variances` (src/hypothesis_calc.py): if both raw
samples are supplied, their statistics overwrite the summary arguments. -/
def test_diff_means_equal_variances (sqrt : ℚ → ℚ) (tppf : ℚ → ℚ → ℚ)
    (x_bar_1 x_bar_2 s_sq_1 s_sq_2 : Option ℚ) (n_1 n_2 : Option ℕ)
    (alpha : Option ℚ) (sample_1 sample_2 : Option (List ℚ)) :
    Except ErrKind DiffMeansRes :=
  match sample_1, sample_2 with
  | some smp1, some smp2 =>
    match calculate_sample_stats sqrt smp1 with
    | .error e => .error e
    | .ok (m1, v1, _sd1, c1) =>
    match calculate_sample_stats sqrt smp2 with
    | .error e => .error e
    | .ok (m2, v2, _sd2, c2) =>
      test_diff_means_equal_variances_core sqrt tppf
        (some m1) (some m2) (some v1) (some v2) (some c1) (some c2) alpha
  | _, _ =>
    test_diff_means_equal_variances_core sqrt tppf
      x_bar_1 x_bar_2 s_sq_1 s_sq_2 n_1 n_2 alpha

/-- Result mapping of `test_diff_means_welch` (src/hypothesis_calc.py);
the `df` entry is a rounded float, not an integer. -/
structure WelchRes where
  x_bar_1 : ℚ
  x_bar_2 : ℚ
  s_sq_1 : ℚ
  s_sq_2 : ℚ
  n_1 : ℕ
  n_2 : ℕ
  alpha : ℚ
  w_1 : ℚ
  w_2 : ℚ
  t_calc : ℚ
  df : ℚ
  t_critico_bilateral : ℚ
  t_critico_unilateral : ℚ
deriving DecidableEq

/-- The Welch degrees-of-freedom expression of `test_diff_means_welch`
(src/hypothesis_calc.py lines 244-254) and of `t_welch_dif_medias`
(src/calculadora_testes_hipoteses.py lines 572-579): note the `(n + 1)`
denominators. -/
def welch_df (s_sq_1 : ℚ) (n_1 : ℚ) (s_sq_2 : ℚ) (n_2 : ℚ) : ℚ :=
  let w_1 := s_sq_1 / n_1
  let w_2 := s_sq_2 / n_2
  (w_1 + w_2) ^ 2 / (w_1 ^ 2 / (n_1 + 1) + w_2 ^ 2 / (n_2 + 1))

/-- Body of `test_diff_means_welch` after the raw-sample normalisation
step (src/hypothesis_calc.py lines 236-274). -/
def test_diff_means_welch_core (sqrt : ℚ → ℚ) (tppf : ℚ → ℚ → ℚ)
    (x_bar_1 x_bar_2 s_sq_1 s_sq_2 : Option ℚ) (n_1 n_2 : Option ℕ)
    (alpha : Option ℚ) : Except ErrKind WelchRes :=
  match x_bar_1, x_bar_2, s_sq_1, s_sq_2, n_1, n_2, alpha with
  | some x1, some x2, some v1, some v2, some m1, some m2, some a =>
    match validate_alpha a with
    | .error e => .error e
    | .ok _ =>
    match validate_sample_size m1 with
    | .error e => .error e
    | .ok _ =>
    match validate_sample_size m2 with
    | .error e => .error e
    | .ok _ =>
      let w_1 := v1 / (m1 : ℚ)
      let w_2 := v2 / (m2 : ℚ)
      let t_calc := (x1 - x2) / sqrt (w_1 + w_2)
      let numerator := (w_1 + w_2) ^ 2
      let denominator := w_1 ^ 2 / ((m1 : ℚ) + 1) + w_2 ^ 2 / ((m2 : ℚ) + 1)
      let df := numerator / denominator
      .ok { x_bar_1 := round2 x1, x_bar_2 := round2 x2,
            s_sq_1 := round2 v1, s_sq_2 := round2 v2,
            n_1 := m1, n_2 := m2, alpha := a,
            w_1 := round2 w_1, w_2 := round2 w_2,
            t_calc := round2 t_calc, df := round2 df,
            t_critico_bilateral := round2 (tppf (1 - a/2) df),
            t_critico_unilateral := round2 (tppf (1 - a) df) }
  | _, _, _, _, _, _, _ => .error .incompleteInput

/-- `test_diff_means_welch` (src/hypothesis_calc.py). -/
def test_diff_means_welch (sqrt : ℚ → ℚ) (tppf : ℚ → ℚ → ℚ)
    (x_bar_1 x_bar_2 s_sq_1 s_sq_2 : Option ℚ) (n_1 n_2 : Option ℕ)
    (alpha : Option ℚ) (sample_1 sample_2 : Option (List ℚ)) :
    Except ErrKind WelchRes :=
  match sample_1, sample_2 with
  | some smp1, some smp2 =>
    match calculate_sample_stats sqrt smp1 with
    | .error e => .error e
    | .ok (m1, v1, _sd1, c1) =>
    match calculate_sample_stats sqrt smp2 with
    | .error e => .error e
    | .ok (m2, v2, _sd2, c2) =>
      test_diff_means_welch_core sqrt tppf
        (some m1) (some m2) (some v1) (some v2) (some c1) (some c2) alpha
  | _, _ =>
    test_diff_means_welch_core sqrt tppf
      x_bar_1 x_bar_2 s_sq_1 s_sq_2 n_1 n_2 alpha

/-- Result mapping of `test_paired_samples` (src/hypothesis_calc.py). -/
structure PairedRes where
  d_bar : ℚ
  s_d : ℚ
  n : ℕ
  delta : ℚ
  alpha : ℚ
  t_calc : ℚ
  df : ℕ
  t_critico_bilateral : ℚ
  t_critico_unilateral : ℚ
deriving DecidableEq

/-- Body of `test_paired_samples` after the raw-sample normalisation step
(src/hypothesis_calc.py lines 301-328); `delta` defaults to 0 and is
always present. -/
def test_paired_samples_core (sqrt : ℚ → ℚ) (tppf : ℚ → ℚ → ℚ)
    (d_bar s_d : Option ℚ) (n : Option ℕ) (delta : ℚ) (alpha : Option ℚ) :
    Except ErrKind PairedRes :=
  match d_bar, s_d, n, alpha with
  | some db, some sd, some nv, some a =>
    match validate_alpha a with
    | .error e => .error e
    | .ok _ =>
    match validate_sample_size nv with
    | .error e => .error e
    | .ok _ =>
      let t_calc := (db - delta) / (sd / sqrt (nv : ℚ))
      .ok { d_bar := round2 db, s_d := round2 sd, n := nv, delta := delta, alpha := a,
            t_calc := round2 t_calc, df := nv - 1,
            t_critico_bilateral := round2 (tppf (1 - a/2) ((nv : ℚ) - 1)),
            t_critico_unilateral := round2 (tppf (1 - a) ((nv : ℚ) - 1)) }
  | _, _, _, _ => .error .incompleteInput

/-- `test_paired_samples` (src/hypothesis_calc.py). -/
def test_paired_samples (sqrt : ℚ → ℚ) (tppf : ℚ → ℚ → ℚ)
    (d_bar s_d : Option ℚ) (n : Option ℕ) (delta : ℚ) (alpha : Option ℚ)
    (sample_diff : Option (List ℚ)) : Except ErrKind PairedRes :=
  match sample_diff with
  | some smp =>
    match calculate_sample_stats sqrt smp with
    | .error e => .error e
    | .ok (m, _v, sd, cnt) =>
      test_paired_samples_core sqrt tppf (some m) (some sd) (some cnt) delta alpha
  | none => test_paired_samples_core sqrt tppf d_bar s_d n delta alpha

/-- Result mapping of `test_mean_known_variance` (src/hypothesis_calc.py). -/
structure MeanZRes where
  x_bar : ℚ
  sigma : ℚ
  n : ℕ
  mu_0 : ℚ
  alpha : ℚ
  z_calc : ℚ
  z_critico_bilateral : ℚ
  z_critico_unilateral : ℚ
deriving DecidableEq

/-- Body of `test_mean_known_variance` after the raw-sample normalisation
step (src/hypothesis_calc.py lines 355-378). -/
def test_mean_known_variance_core (sqrt : ℚ → ℚ) (normppf : ℚ → ℚ)
    (x_bar sigma : Option ℚ) (n : Option ℕ) (mu_0 alpha : Option ℚ) :
    Except ErrKind MeanZRes :=
  match x_bar, sigma, n, mu_0, alpha with
  | some xb, some sg, some nv, some mu, some a =>
    match validate_alpha a with
    | .error e => .error e
    | .ok _ =>
    match validate_sample_size nv with
    | .error e => .error e
    | .ok _ =>
      let z_calc := (xb - mu) / (sg / sqrt (nv : ℚ))
      .ok { x_bar := round2 xb, sigma := sg, n := nv, mu_0 := mu, alpha := a,
            z_calc := round2 z_calc,
            z_critico_bilateral := round2 (normppf (1 - a/2)),
            z_critico_unilateral := round2 (normppf (1 - a)) }
  | _, _, _, _, _ => .error .incompleteInput

/-- `test_mean_known_variance` (src/hypothesis_calc.py): a raw sample only
supplies the mean `sum(sample)/len(sample)` and the count. -/
def test_mean_known_variance (sqrt : ℚ → ℚ) (normppf : ℚ → ℚ)
    (x_bar sigma : Option ℚ) (n : Option ℕ) (mu_0 alpha : Option ℚ)
    (sample : Option (List ℚ)) : Except ErrKind MeanZRes :=
  match sample with
  | some smp =>
    test_mean_known_variance_core sqrt normppf
      (some (smp.sum / (smp.length : ℚ))) sigma (some smp.length) mu_0 alpha
  | none => test_mean_known_variance_core sqrt normppf x_bar sigma n mu_0 alpha

/-- Result mapping of `test_proportion` (src/hypothesis_calc.py). -/
structure PropRes where
  p_hat : ℚ
  p_0 : ℚ
  n : ℕ
  alpha : ℚ
  z_calc : ℚ
  z_critico_bilateral : ℚ
  z_critico_unilateral : ℚ
deriving DecidableEq

/-- Body of `test_proportion` after the successes normalisation step
(src/hypothesis_calc.py lines 405-430). -/
def test_proportion_core (sqrt : ℚ → ℚ) (normppf : ℚ → ℚ)
    (p_hat p_0 : Option ℚ) (n : Option ℕ) (alpha : Option ℚ) :
    Except ErrKind PropRes :=
  match p_hat, p_0, n, alpha with
  | some ph, some p0, some nv, some a =>
    match validate_alpha a with
    | .error e => .error e
    | .ok _ =>
    match validate_sample_size nv with
    | .error e => .error e
    | .ok _ =>
      if 0 ≤ ph ∧ ph ≤ 1 ∧ 0 ≤ p0 ∧ p0 ≤ 1 then
        let z_calc := (ph - p0) / sqrt (p0 * (1 - p0) / (nv : ℚ))
        .ok { p_hat := round2 ph, p_0 := p0, n := nv, alpha := a,
              z_calc := round2 z_calc,
              z_critico_bilateral := round2 (normppf (1 - a/2)),
              z_critico_unilateral := round2 (normppf (1 - a)) }
      else .error .invalidProportion
  | _, _, _, _ => .error .incompleteInput

/-- `test_proportion` (src/hypothesis_calc.py): if `successes` and `n` are
both given, `p̂ = successes / n`. -/
def test_proportion (sqrt : ℚ → ℚ) (normppf : ℚ → ℚ)
    (p_hat p_0 : Option ℚ) (n : Option ℕ) (alpha : Option ℚ)
    (successes : Option ℕ) : Except ErrKind PropRes :=
  match successes, n with
  | some f, some nv => test_proportion_core sqrt normppf (some ((f : ℚ) / (nv : ℚ))) p_0 n alpha
  | _, _ => test_proportion_core sqrt normppf p_hat p_0 n alpha

/-- Result mapping of `test_variance` (src/hypothesis_calc.py). -/
structure VarRes where
  s_sq : ℚ
  sigma_0_sq : ℚ
  n : ℕ
  alpha : ℚ
  chi_sq_calc : ℚ
  df : ℕ
  chi_sq_critico_bilateral_lower : ℚ
  chi_sq_critico_bilateral_upper : ℚ
  chi_sq_critico_unilateral_dir : ℚ
  chi_sq_critico_unilateral_esq : ℚ
deriving DecidableEq

/-- Body of `test_variance` after the raw-sample normalisation step
(src/hypothesis_calc.py lines 455-490). -/
def test_variance_core (chi2ppf : ℚ → ℚ → ℚ)
    (s_sq sigma_0_sq : Option ℚ) (n : Option ℕ) (alpha : Option ℚ) :
    Except ErrKind VarRes :=
  match s_sq, sigma_0_sq, n, alpha with
  | some v, some s0, some nv, some a =>
    match validate_alpha a with
    | .error e => .error e
    | .ok _ =>
    match validate_sample_size nv with
    | .error e => .error e
    | .ok _ =>
      if s0 ≤ 0 then .error .invalidNullVariance
      else
        let chi_sq_calc := ((nv : ℚ) - 1) * v / s0
        let dfq := (nv : ℚ) - 1
        .ok { s_sq := round2 v, sigma_0_sq := s0, n := nv, alpha := a,
              chi_sq_calc := round2 chi_sq_calc, df := nv - 1,
              chi_sq_critico_bilateral_lower := round2 (chi2ppf (a/2) dfq),
              chi_sq_critico_bilateral_upper := round2 (chi2ppf (1 - a/2) dfq),
              chi_sq_critico_unilateral_dir := round2 (chi2ppf (1 - a) dfq),
              chi_sq_critico_unilateral_esq := round2 (chi2ppf a dfq) }
  | _, _, _, _ => .error .incompleteInput

/-- `test_variance` (src/hypothesis_calc.py). -/
def test_variance (sqrt : ℚ → ℚ) (chi2ppf : ℚ → ℚ → ℚ)
    (s_sq sigma_0_sq : Option ℚ) (n : Option ℕ) (alpha : Option ℚ)
    (sample : Option (List ℚ)) : Except ErrKind VarRes :=
  match sample with
  | some smp =>
    match calculate_sample_stats sqrt smp with
    | .error e => .error e
    | .ok (_m, v, _sd, cnt) =>
      test_variance_core chi2ppf (some v) sigma_0_sq (some cnt) alpha
  | none => test_variance_core chi2ppf s_sq sigma_0_sq n alpha

/-- Result mapping of `test_diff_proportions` (src/hypothesis_calc.py). -/
structure DiffPropRes where
  p_hat_1 : ℚ
  p_hat_2 : ℚ
  n_1 : ℕ
  n_2 : ℕ
  alpha : ℚ
  p_hat_pooled : ℚ
  z_calc : ℚ
  z_critico_bilateral : ℚ
  z_critico_unilateral : ℚ
deriving DecidableEq

/-- Body of `test_diff_proportions` after the successes normalisation step
(src/hypothesis_calc.py lines 520-551). -/
def test_diff_proportions_core (sqrt : ℚ → ℚ) (normppf : ℚ → ℚ)
    (p_hat_1 p_hat_2 : Option ℚ) (n_1 n_2 : Option ℕ) (alpha : Option ℚ) :
    Except ErrKind DiffPropRes :=
  match p_hat_1, p_hat_2, n_1, n_2, alpha with
  | some p1, some p2, some m1, some m2, some a =>
    match validate_alpha a with
    | .error e => .error e
    | .ok _ =>
    match validate_sample_size m1 with
    | .error e => .error e
    | .ok _ =>
    match validate_sample_size m2 with
    | .error e => .error e
    | .ok _ =>
      if 0 ≤ p1 ∧ p1 ≤ 1 ∧ 0 ≤ p2 ∧ p2 ≤ 1 then
        let p_hat := (p1 * (m1 : ℚ) + p2 * (m2 : ℚ)) / ((m1 : ℚ) + (m2 : ℚ))
        let z_calc := (p1 - p2) / sqrt (p_hat * (1 - p_hat) * (1/(m1 : ℚ) + 1/(m2 : ℚ)))
        .ok { p_hat_1 := round2 p1, p_hat_2 := round2 p2,
              n_1 := m1, n_2 := m2, alpha := a,
              p_hat_pooled := round2 p_hat, z_calc := round2 z_calc,
              z_critico_bilateral := round2 (normppf (1 - a/2)),
              z_critico_unilateral := round2 (normppf (1 - a)) }
      else .error .invalidProportion
  | _, _, _, _, _ => .error .incompleteInput

/-- `test_diff_proportions` (src/hypothesis_calc.py): when both success
counts are given the code divides `successes_i / n_i` before checking that
`n_i` is present, so an absent `n_i` is a Python `TypeError` at that
division, not the incomplete-input `ValueError`. -/
def test_diff_proportions (sqrt : ℚ → ℚ) (normppf : ℚ → ℚ)
    (p_hat_1 p_hat_2 : Option ℚ) (n_1 n_2 : Option ℕ) (alpha : Option ℚ)
    (successes_1 successes_2 : Option ℕ) : Except ErrKind DiffPropRes :=
  match successes_1, successes_2 with
  | some f1, some f2 =>
    match n_1, n_2 with
    | some m1, some m2 =>
      test_diff_proportions_core sqrt normppf
        (some ((f1 : ℚ) / (m1 : ℚ))) (some ((f2 : ℚ) / (m2 : ℚ))) n_1 n_2 alpha
    | _, _ => .error .typeError
  | _, _ => test_diff_proportions_core sqrt normppf p_hat_1 p_hat_2 n_1 n_2 alpha

/-- Result mapping of `test_diff_variances` (src/hypothesis_calc.py). -/
structure DiffVarRes where
  s_sq_1 : ℚ
  s_sq_2 : ℚ
  n_1 : ℕ
  n_2 : ℕ
  alpha : ℚ
  f_calc : ℚ
  df_1 : ℕ
  df_2 : ℕ
  f_critico_bilateral : ℚ
  f_critico_unilateral : ℚ
deriving DecidableEq

/-- Body of `test_diff_variances` after the raw-sample normalisation step
(src/hypothesis_calc.py lines 579-609): note that it always computes
`F = S₁²/S₂²` and takes both critical values at `(n₁-1, n₂-1)`, with no
larger/smaller selection for the two-tailed value. -/
def test_diff_variances_core (fppf : ℚ → ℚ → ℚ → ℚ)
    (s_sq_1 s_sq_2 : Option ℚ) (n_1 n_2 : Option ℕ) (alpha : Option ℚ) :
    Except ErrKind DiffVarRes :=
  match s_sq_1, s_sq_2, n_1, n_2, alpha with
  | some v1, some v2, some m1, some m2, some a =>
    match validate_alpha a with
    | .error e => .error e
    | .ok _ =>
    match validate_sample_size m1 with
    | .error e => .error e
    | .ok _ =>
    match validate_sample_size m2 with
    | .error e => .error e
    | .ok _ =>
      let f_calc := v1 / v2
      let df_1 := m1 - 1
      let df_2 := m2 - 1
      .ok { s_sq_1 := round2 v1, s_sq_2 := round2 v2,
            n_1 := m1, n_2 := m2, alpha := a,
            f_calc := round2 f_calc, df_1 := df_1, df_2 := df_2,
            f_critico_bilateral := round2 (fppf (1 - a/2) ((m1 : ℚ) - 1) ((m2 : ℚ) - 1)),
            f_critico_unilateral := round2 (fppf (1 - a) ((m1 : ℚ) - 1) ((m2 : ℚ) - 1)) }
  | _, _, _, _, _ => .error .incompleteInput

/-- `test_diff_variances` (src/hypothesis_calc.py). -/
def test_diff_variances (sqrt : ℚ → ℚ) (fppf : ℚ → ℚ → ℚ → ℚ)
    (s_sq_1 s_sq_2 : Option ℚ) (n_1 n_2 : Option ℕ) (alpha : Option ℚ)
    (sample_1 sample_2 : Option (List ℚ)) : Except ErrKind DiffVarRes :=
  match sample_1, sample_2 with
  | some smp1, some smp2 =>
    match calculate_sample_stats sqrt smp1 with
    | .error e => .error e
    | .ok (_m1, v1, _sd1, c1) =>
    match calculate_sample_stats sqrt smp2 with
    | .error e => .error e
    | .ok (_m2, v2, _sd2, c2) =>
      test_diff_variances_core fppf (some v1) (some v2) (some c1) (some c2) alpha
  | _, _ => test_diff_variances_core fppf s_sq_1 s_sq_2 n_1 n_2 alpha

end HypCalc

namespace Calc

/-- Spread-parameter clause of `validar_parametros`
(src/calculadora_testes_hipoteses.py lines 61-62): `S < 0` is rejected. -/
def validar_s (s : Option ℚ) : Except ErrKind Unit :=
  match s with
  | some sv => if sv < 0 then .error .invalidSpreadParameter else .ok ()
  | none => .ok ()

/-- Significance-level clause of `validar_parametros`
(src/calculadora_testes_hipoteses.py lines 58-59): `α ≤ 0` or `α ≥ 1` is
rejected, then the spread clause runs. -/
def validar_alpha_s (alpha s : Option ℚ) : Except ErrKind Unit :=
  match alpha with
  | some a => if a ≤ 0 ∨ 1 ≤ a then .error .invalidSignificanceLevel else validar_s s
  | none => validar_s s

/-- `validar_parametros(n, alpha, s)` (src/calculadora_testes_hipoteses.py
lines 43-62): `n ≤ 1` is rejected first, then `α`, then `S`; each argument
is optional and skipped when absent. -/
def validar_parametros (n alpha s : Option ℚ) : Except ErrKind Unit :=
  match n with
  | some nv => if nv ≤ 1 then .error .insufficientSampleSize else validar_alpha_s alpha s
  | none => validar_alpha_s alpha s

/-- Result mapping of `t_media_var_desconhecida`
(src/calculadora_testes_hipoteses.py). -/
structure T1Res where
  tipo : TipoTeste
  gl : ℤ
  t_calculado : ℚ
  t_critico : ℚ
  alpha : ℚ
deriving DecidableEq

/-- `t_media_var_desconhecida` (src/calculadora_testes_hipoteses.py):
one-sample t test; the lower-tailed critical value is literally
`-stats.t.ppf(1 - alpha, gl)`. -/
def t_media_var_desconhecida (sqrt : ℚ → ℚ) (tppf : ℚ → ℚ → ℚ)
    (x_barra mu_0 s n alpha : ℚ) (tipo : TipoTeste) : Except ErrKind T1Res :=
  match validar_parametros (some n) (some alpha) (some s) with
  | .error e => .error e
  | .ok _ =>
    let gl := n - 1
    let t_calc := (x_barra - mu_0) / (s / sqrt n)
    let t_crit :=
      match tipo with
      | .bilateral => tppf (1 - alpha/2) gl
      | .unilateralDir => tppf (1 - alpha) gl
      | .unilateralEsq => -(tppf (1 - alpha) gl)
    .ok { tipo := tipo, gl := pyInt gl, t_calculado := t_calc,
          t_critico := t_crit, alpha := alpha }

/-- Result mapping of `z_media_var_conhecida`
(src/calculadora_testes_hipoteses.py). -/
structure Z1Res where
  tipo : TipoTeste
  z_calculado : ℚ
  z_critico : ℚ
  alpha : ℚ
deriving DecidableEq

/-- `z_media_var_conhecida` (src/calculadora_testes_hipoteses.py):
one-sample z test; the lower-tailed critical value is literally
`-stats.norm.ppf(1 - alpha)`. -/
def z_media_var_conhecida (sqrt : ℚ → ℚ) (normppf : ℚ → ℚ)
    (x_barra mu_0 sigma n alpha : ℚ) (tipo : TipoTeste) : Except ErrKind Z1Res :=
  match validar_parametros (some n) (some alpha) (some sigma) with
  | .error e => .error e
  | .ok _ =>
    let z_calc := (x_barra - mu_0) / (sigma / sqrt n)
    let z_crit :=
      match tipo with
      | .bilateral => normppf (1 - alpha/2)
      | .unilateralDir => normppf (1 - alpha)
      | .unilateralEsq => -(normppf (1 - alpha))
    .ok { tipo := tipo, z_calculado := z_calc, z_critico := z_crit, alpha := alpha }

/-- Result mapping of `chi2_variancia`
(src/calculadora_testes_hipoteses.py): the two-tailed branch assembles a
dictionary with two critical entries, the one-tailed branches a single
one. -/
inductive Chi2Res where
  | bilateral (gl : ℤ) (chi2_calculado : ℚ) (chi2_critico_inf chi2_critico_sup : ℚ) (alpha : ℚ)
  | unilateral (tipo : TipoTeste) (gl : ℤ) (chi2_calculado : ℚ) (chi2_critico : ℚ) (alpha : ℚ)
deriving DecidableEq

/-- `chi2_variancia` (src/calculadora_testes_hipoteses.py): one-sample
variance chi-square test; two-tailed uses the pair
`(chi2.ppf(α/2, gl), chi2.ppf(1-α/2, gl))`. -/
def chi2_variancia (chi2ppf : ℚ → ℚ → ℚ)
    (s sigma2_0 n alpha : ℚ) (tipo : TipoTeste) : Except ErrKind Chi2Res :=
  match validar_parametros (some n) (some alpha) (some s) with
  | .error e => .error e
  | .ok _ =>
    if sigma2_0 ≤ 0 then .error .invalidNullVariance
    else
      let gl := n - 1
      let chi2_calc := (n - 1) * s ^ 2 / sigma2_0
      match tipo with
      | .bilateral =>
        .ok (.bilateral (pyInt gl) chi2_calc (chi2ppf (alpha/2) gl) (chi2ppf (1 - alpha/2) gl) alpha)
      | .unilateralDir =>
        .ok (.unilateral .unilateralDir (pyInt gl) chi2_calc (chi2ppf (1 - alpha) gl) alpha)
      | .unilateralEsq =>
        .ok (.unilateral .unilateralEsq (pyInt gl) chi2_calc (chi2ppf alpha gl) alpha)

/-- `z_proporcao` (src/calculadora_testes_hipoteses.py): one-sample
proportion z test. -/
def z_proporcao (sqrt : ℚ → ℚ) (normppf : ℚ → ℚ)
    (p_hat p_0 n alpha : ℚ) (tipo : TipoTeste) : Except ErrKind Z1Res :=
  match validar_parametros (some n) (some alpha) none with
  | .error e => .error e
  | .ok _ =>
    if 0 ≤ p_hat ∧ p_hat ≤ 1 ∧ 0 ≤ p_0 ∧ p_0 ≤ 1 then
      let z_calc := (p_hat - p_0) / sqrt (p_0 * (1 - p_0) / n)
      let z_crit :=
        match tipo with
        | .bilateral => normppf (1 - alpha/2)
        | .unilateralDir => normppf (1 - alpha)
        | .unilateralEsq => -(normppf (1 - alpha))
      .ok { tipo := tipo, z_calculado := z_calc, z_critico := z_crit, alpha := alpha }
    else .error .invalidProportion

/-- Result mapping of `t_dif_medias_var_iguais`
(src/calculadora_testes_hipoteses.py). -/
structure TDifRes where
  tipo : TipoTeste
  gl : ℤ
  sp2 : ℚ
  sp : ℚ
  t_calculado : ℚ
  t_critico : ℚ
  alpha : ℚ
deriving DecidableEq

/-- `t_dif_medias_var_iguais` (src/calculadora_testes_hipoteses.py):
pooled two-sample t test. -/
def t_dif_medias_var_iguais (sqrt : ℚ → ℚ) (tppf : ℚ → ℚ → ℚ)
    (x1_barra x2_barra s1 s2 n1 n2 alpha : ℚ) (tipo : TipoTeste) :
    Except ErrKind TDifRes :=
  match validar_parametros (some n1) (some alpha) (some s1) with
  | .error e => .error e
  | .ok _ =>
  match validar_parametros (some n2) (some alpha) (some s2) with
  | .error e => .error e
  | .ok _ =>
    let gl := n1 + n2 - 2
    let sp2 := ((n1 - 1) * s1 ^ 2 + (n2 - 1) * s2 ^ 2) / gl
    let sp := sqrt sp2
    let t_calc := (x1_barra - x2_barra) / (sp * sqrt (1/n1 + 1/n2))
    let t_crit :=
      match tipo with
      | .bilateral => tppf (1 - alpha/2) gl
      | .unilateralDir => tppf (1 - alpha) gl
      | .unilateralEsq => -(tppf (1 - alpha) gl)
    .ok { tipo := tipo, gl := pyInt gl, sp2 := sp2, sp := sp,
          t_calculado := t_calc, t_critico := t_crit, alpha := alpha }

/-- Result mapping of `t_welch_dif_medias`
(src/calculadora_testes_hipoteses.py): the Welch degrees of freedom are
kept as a float (never passed through `int`). -/
structure WelchCalcRes where
  tipo : TipoTeste
  w1 : ℚ
  w2 : ℚ
  gl_welch : ℚ
  t_calculado : ℚ
  t_critico : ℚ
  alpha : ℚ
deriving DecidableEq

/-- `t_welch_dif_medias` (src/calculadora_testes_hipoteses.py): Welch
two-sample t test; `ν = (W₁+W₂)² / (W₁²/(n₁+1) + W₂²/(n₂+1))` is used
directly, fractional, as the quantile parameter. -/
def t_welch_dif_medias (sqrt : ℚ → ℚ) (tppf : ℚ → ℚ → ℚ)
    (x1_barra x2_barra s1 s2 n1 n2 alpha : ℚ) (tipo : TipoTeste) :
    Except ErrKind WelchCalcRes :=
  match validar_parametros (some n1) (some alpha) (some s1) with
  | .error e => .error e
  | .ok _ =>
  match validar_parametros (some n2) (some alpha) (some s2) with
  | .error e => .error e
  | .ok _ =>
    let w1 := s1 ^ 2 / n1
    let w2 := s2 ^ 2 / n2
    let numerador := (w1 + w2) ^ 2
    let denominador := w1 ^ 2 / (n1 + 1) + w2 ^ 2 / (n2 + 1)
    let gl_welch := numerador / denominador
    let t_calc := (x1_barra - x2_barra) / sqrt (w1 + w2)
    let t_crit :=
      match tipo with
      | .bilateral => tppf (1 - alpha/2) gl_welch
      | .unilateralDir => tppf (1 - alpha) gl_welch
      | .unilateralEsq => -(tppf (1 - alpha) gl_welch)
    .ok { tipo := tipo, w1 := w1, w2 := w2, gl_welch := gl_welch,
          t_calculado := t_calc, t_critico := t_crit, alpha := alpha }

/-- Result mapping of `t_pareado` (src/calculadora_testes_hipoteses.py). -/
structure TParRes where
  tipo : TipoTeste
  gl : ℤ
  delta : ℚ
  t_calculado : ℚ
  t_critico : ℚ
  alpha : ℚ
deriving DecidableEq

/-- `t_pareado` (src/calculadora_testes_hipoteses.py): paired t test. -/
def t_pareado (sqrt : ℚ → ℚ) (tppf : ℚ → ℚ → ℚ)
    (d_barra delta sd n alpha : ℚ) (tipo : TipoTeste) : Except ErrKind TParRes :=
  match validar_parametros (some n) (some alpha) (some sd) with
  | .error e => .error e
  | .ok _ =>
    let gl := n - 1
    let t_calc := (d_barra - delta) / (sd / sqrt n)
    let t_crit :=
      match tipo with
      | .bilateral => tppf (1 - alpha/2) gl
      | .unilateralDir => tppf (1 - alpha) gl
      | .unilateralEsq => -(tppf (1 - alpha) gl)
    .ok { tipo := tipo, gl := pyInt gl, delta := delta,
          t_calculado := t_calc, t_critico := t_crit, alpha := alpha }

/-- `z_dif_medias_var_conhecidas` (src/calculadora_testes_hipoteses.py):
two-sample z test with known variances. -/
def z_dif_medias_var_conhecidas (sqrt : ℚ → ℚ) (normppf : ℚ → ℚ)
    (x1_barra x2_barra sigma1 sigma2 n1 n2 alpha : ℚ) (tipo : TipoTeste) :
    Except ErrKind Z1Res :=
  match validar_parametros (some n1) (some alpha) (some sigma1) with
  | .error e => .error e
  | .ok _ =>
  match validar_parametros (some n2) (some alpha) (some sigma2) with
  | .error e => .error e
  | .ok _ =>
    let z_calc := (x1_barra - x2_barra) / sqrt (sigma1 ^ 2 / n1 + sigma2 ^ 2 / n2)
    let z_crit :=
      match tipo with
      | .bilateral => normppf (1 - alpha/2)
      | .unilateralDir => normppf (1 - alpha)
      | .unilateralEsq => -(normppf (1 - alpha))
    .ok { tipo := tipo, z_calculado := z_calc, z_critico := z_crit, alpha := alpha }

/-- Result mapping of `z_dif_proporcoes`
(src/calculadora_testes_hipoteses.py). -/
structure ZDifPropRes where
  tipo : TipoTeste
  p_combinada : ℚ
  z_calculado : ℚ
  z_critico : ℚ
  alpha : ℚ
deriving DecidableEq

/-- `z_dif_proporcoes` (src/calculadora_testes_hipoteses.py): two-sample
proportion z test; the pooled proportion is rebuilt from the counts
`fᵢ = p̂ᵢ·nᵢ`. -/
def z_dif_proporcoes (sqrt : ℚ → ℚ) (normppf : ℚ → ℚ)
    (p1_hat p2_hat n1 n2 alpha : ℚ) (tipo : TipoTeste) :
    Except ErrKind ZDifPropRes :=
  match validar_parametros (some n1) (some alpha) none with
  | .error e => .error e
  | .ok _ =>
  match validar_parametros (some n2) (some alpha) none with
  | .error e => .error e
  | .ok _ =>
    if 0 ≤ p1_hat ∧ p1_hat ≤ 1 ∧ 0 ≤ p2_hat ∧ p2_hat ≤ 1 then
      let f1 := p1_hat * n1
      let f2 := p2_hat * n2
      let p_combinada := (f1 + f2) / (n1 + n2)
      let z_calc := (p1_hat - p2_hat) / sqrt (p_combinada * (1 - p_combinada) * (1/n1 + 1/n2))
      let z_crit :=
        match tipo with
        | .bilateral => normppf (1 - alpha/2)
        | .unilateralDir => normppf (1 - alpha)
        | .unilateralEsq => -(normppf (1 - alpha))
      .ok { tipo := tipo, p_combinada := p_combinada, z_calculado := z_calc,
            z_critico := z_crit, alpha := alpha }
    else .error .invalidProportion

/-- Result mapping of `f_dif_variancias`
(src/calculadora_testes_hipoteses.py). -/
structure FRes where
  tipo : TipoTeste
  gl1 : ℤ
  gl2 : ℤ
  f_calculado : ℚ
  f_critico : ℚ
  alpha : ℚ
deriving DecidableEq

/-- `f_dif_variancias` (src/calculadora_testes_hipoteses.py): two-sample
variance F test; only `bilateral` and `unilateral_dir` are accepted.  The
two-tailed branch uses `max(s₁,s₂)²/min(s₁,s₂)²` and swaps the df pair of
the quantile when `s₂` is the larger. -/
def f_dif_variancias (fppf : ℚ → ℚ → ℚ → ℚ)
    (s1 s2 n1 n2 alpha : ℚ) (tipo : TipoTeste) : Except ErrKind FRes :=
  if tipo = .unilateralEsq then .error .invalidTailType
  else
    match validar_parametros (some n1) (some alpha) (some s1) with
    | .error e => .error e
    | .ok _ =>
    match validar_parametros (some n2) (some alpha) (some s2) with
    | .error e => .error e
    | .ok _ =>
      let gl1 := n1 - 1
      let gl2 := n2 - 1
      match tipo with
      | .unilateralDir =>
        let f_calc := s1 ^ 2 / s2 ^ 2
        .ok { tipo := tipo, gl1 := pyInt gl1, gl2 := pyInt gl2,
              f_calculado := f_calc, f_critico := fppf (1 - alpha) gl1 gl2, alpha := alpha }
      | _ =>
        let s_max := max s1 s2
        let s_min := min s1 s2
        let f_calc := s_max ^ 2 / s_min ^ 2
        let f_crit :=
          if s2 < s1 then fppf (1 - alpha/2) gl1 gl2
          else fppf (1 - alpha/2) gl2 gl1
        .ok { tipo := tipo, gl1 := pyInt gl1, gl2 := pyInt gl2,
              f_calculado := f_calc, f_critico := f_crit, alpha := alpha }

end Calc

namespace HypCalc

theorem validate_alpha_ok (a : ℚ) (h0 : 0 < a) (h1 : a < 1) :
    validate_alpha a = .ok () := by
  simp [validate_alpha, h0, h1]

theorem validate_alpha_err (a : ℚ) (h : ¬(0 < a ∧ a < 1)) :
    validate_alpha a = .error .invalidSignificanceLevel := by
  simp only [validate_alpha, if_neg h]

theorem validate_sample_size_ok (n : ℕ) (h : 2 ≤ n) :
    validate_sample_size n = .ok () := by
  unfold validate_sample_size
  rw [if_neg (by omega)]

theorem validate_sample_size_err (n : ℕ) (h : n < 2) :
    validate_sample_size n = .error .insufficientSampleSize := by
  unfold validate_sample_size
  rw [if_pos h]

theorem calculate_sample_stats_ok (sqrt : ℚ → ℚ) (smp : List ℚ)
    (h : 2 ≤ smp.length) :
    calculate_sample_stats sqrt smp
      = .ok (sampleMean smp, sampleVariance smp, sqrt (sampleVariance smp), smp.length) := by
  unfold calculate_sample_stats
  rw [if_neg (by omega)]

theorem sampleVariance_nonneg (sample : List ℚ) (h : 2 ≤ sample.length) :
    0 ≤ sampleVariance sample := by
  unfold sampleVariance
  apply div_nonneg
  · apply List.sum_nonneg
    intro x hx
    obtain ⟨y, _, rfl⟩ := List.mem_map.mp hx
    exact sq_nonneg _
  · have h2 : (2 : ℚ) ≤ (sample.length : ℚ) := by exact_mod_cast h
    linarith

theorem sampleMean_const (sample : List ℚ) (c : ℚ) (h : 1 ≤ sample.length)
    (hc : ∀ x ∈ sample, x = c) : sampleMean sample = c := by
  unfold sampleMean
  rw [List.sum_eq_card_nsmul sample c hc, nsmul_eq_mul]
  have hlen : (sample.length : ℚ) ≠ 0 := by
    have : (1 : ℚ) ≤ (sample.length : ℚ) := by exact_mod_cast h
    linarith
  field_simp

theorem sampleVariance_const (sample : List ℚ) (c : ℚ) (h : 2 ≤ sample.length)
    (hc : ∀ x ∈ sample, x = c) : sampleVariance sample = 0 := by
  unfold sampleVariance
  have hz : (sample.map fun x => (x - sampleMean sample) ^ 2).sum = 0 := by
    apply List.sum_eq_zero
    intro x hx
    obtain ⟨y, hy, rfl⟩ := List.mem_map.mp hx
    rw [sampleMean_const sample c (by omega) hc, hc y hy]
    ring
  rw [hz, zero_div]

/-- Sharp bounds for the Welch expression with `(n+1)` denominators: it
lies between `min n₁ n₂ + 1` and `n₁ + n₂ + 2` (hence in particular above
`min n₁ n₂ - 1`). -/
theorem welch_nu_bounds (v1 v2 a b : ℚ) (ha : 2 ≤ a) (hb : 2 ≤ b)
    (h1 : 0 ≤ v1) (h2 : 0 ≤ v2) (hne : v1 ≠ 0 ∨ v2 ≠ 0) :
    min a b + 1 ≤ welch_df v1 a v2 b ∧ welch_df v1 a v2 b ≤ a + b + 2 := by
  have ha0 : (0 : ℚ) < a := by linarith
  have hb0 : (0 : ℚ) < b := by linarith
  set W1 := v1 / a with hW1def
  set W2 := v2 / b with hW2def
  have hW1 : 0 ≤ W1 := div_nonneg h1 ha0.le
  have hW2 : 0 ≤ W2 := div_nonneg h2 hb0.le
  have hpos : 0 < W1 ∨ 0 < W2 := by
    rcases hne with h | h
    · exact Or.inl (div_pos (lt_of_le_of_ne h1 (Ne.symm h)) ha0)
    · exact Or.inr (div_pos (lt_of_le_of_ne h2 (Ne.symm h)) hb0)
  have ha1 : (0 : ℚ) < a + 1 := by linarith
  have hb1 : (0 : ℚ) < b + 1 := by linarith
  have hM : (0 : ℚ) < (a + 1) * (b + 1) := mul_pos ha1 hb1
  have hN0 : 0 < W1 ^ 2 * (b + 1) + W2 ^ 2 * (a + 1) := by
    rcases hpos with h | h
    · have t1 := mul_pos (pow_pos h 2) hb1
      have t2 := mul_nonneg (sq_nonneg W2) ha1.le
      linarith
    · have t1 := mul_pos (pow_pos h 2) ha1
      have t2 := mul_nonneg (sq_nonneg W1) hb1.le
      linarith
  have hwdf : welch_df v1 a v2 b
      = (W1 + W2) ^ 2 / (W1 ^ 2 / (a + 1) + W2 ^ 2 / (b + 1)) := rfl
  have hDeq : W1 ^ 2 / (a + 1) + W2 ^ 2 / (b + 1)
      = (W1 ^ 2 * (b + 1) + W2 ^ 2 * (a + 1)) / ((a + 1) * (b + 1)) := by
    field_simp
  rw [hwdf, hDeq, div_div_eq_mul_div]
  constructor
  · rw [le_div_iff₀ hN0]
    rcases le_total a b with h | h
    · rw [min_eq_left h]
      nlinarith [mul_nonneg (mul_nonneg hW1 hW2) hM.le,
        mul_nonneg (mul_nonneg (sq_nonneg W2) ha1.le) (sub_nonneg.mpr h),
        mul_nonneg (sq_nonneg W1) hb1.le, mul_nonneg (sq_nonneg W2) ha1.le]
    · rw [min_eq_right h]
      nlinarith [mul_nonneg (mul_nonneg hW1 hW2) hM.le,
        mul_nonneg (mul_nonneg (sq_nonneg W1) hb1.le) (sub_nonneg.mpr h),
        mul_nonneg (sq_nonneg W1) hb1.le, mul_nonneg (sq_nonneg W2) ha1.le]
  · rw [div_le_iff₀ hN0]
    nlinarith [sq_nonneg ((b + 1) * W1 - (a + 1) * W2)]

end HypCalc

namespace Calc

theorem validar_parametros_ok (nv a sv : ℚ) (hn : 1 < nv) (h0 : 0 < a)
    (h1 : a < 1) (hs : 0 ≤ sv) :
    validar_parametros (some nv) (some a) (some sv) = .ok () := by
  simp [validar_parametros, validar_alpha_s, validar_s,
    not_le.mpr hn, not_le.mpr h0, not_le.mpr h1, not_lt.mpr hs]

theorem validar_parametros_ok_sem_s (nv a : ℚ) (hn : 1 < nv) (h0 : 0 < a)
    (h1 : a < 1) :
    validar_parametros (some nv) (some a) none = .ok () := by
  simp [validar_parametros, validar_alpha_s, validar_s,
    not_le.mpr hn, not_le.mpr h0, not_le.mpr h1]

theorem validar_parametros_err_n (nv : ℚ) (al s : Option ℚ) (hn : nv ≤ 1) :
    validar_parametros (some nv) al s = .error .insufficientSampleSize := by
  simp [validar_parametros, hn]

theorem validar_parametros_err_alpha (nv a : ℚ) (s : Option ℚ) (hn : 1 < nv)
    (ha : a ≤ 0 ∨ 1 ≤ a) :
    validar_parametros (some nv) (some a) s = .error .invalidSignificanceLevel := by
  simp [validar_parametros, validar_alpha_s, not_le.mpr hn, ha]

theorem validar_parametros_err_s (nv a sv : ℚ) (hn : 1 < nv) (h0 : 0 < a)
    (h1 : a < 1) (hs : sv < 0) :
    validar_parametros (some nv) (some a) (some sv) = .error .invalidSpreadParameter := by
  simp [validar_parametros, validar_alpha_s, validar_s,
    not_le.mpr hn, not_le.mpr h0, not_le.mpr h1, hs]

end Calc

/-- C7: for every sample of length `n ≥ 2`, `calculate_sample_stats`
returns the arithmetic mean `sum/n`, the sample variance with divisor
`n - 1`, and `np.sqrt` of that variance (the variance is non-negative, so
this is the non-negative square root under the library contract of
`np.sqrt`); for a constant sample the variance is 0 and the standard
deviation is `np.sqrt 0 = 0`; for a sample of length `< 2` it fails with
the insufficient-sample-size error. -/
theorem spec_C7 (sqrt : ℚ → ℚ) (sample : List ℚ) :
    (2 ≤ sample.length →
      HypCalc.calculate_sample_stats sqrt sample
        = .ok (HypCalc.sampleMean sample, HypCalc.sampleVariance sample,
               sqrt (HypCalc.sampleVariance sample), sample.length)
      ∧ HypCalc.sampleMean sample = sample.sum / (sample.length : ℚ)
      ∧ HypCalc.sampleVariance sample
          = ((sample.map fun x => (x - HypCalc.sampleMean sample) ^ 2).sum)
              / ((sample.length : ℚ) - 1)
      ∧ 0 ≤ HypCalc.sampleVariance sample)
    ∧ (∀ c : ℚ, (∀ x ∈ sample, x = c) → 2 ≤ sample.length →
        HypCalc.sampleVariance sample = 0
        ∧ (sqrt 0 = 0 → sqrt (HypCalc.sampleVariance sample) = 0))
    ∧ (sample.length < 2 →
        HypCalc.calculate_sample_stats sqrt sample = .error .insufficientSampleSize) := by
  refine ⟨fun h => ⟨HypCalc.calculate_sample_stats_ok sqrt sample h, rfl, rfl,
      HypCalc.sampleVariance_nonneg sample h⟩, fun c hc h => ?_, fun h => ?_⟩
  · have hv := HypCalc.sampleVariance_const sample c h hc
    exact ⟨hv, fun h0 => by rw [hv, h0]⟩
  · unfold HypCalc.calculate_sample_stats
    rw [if_pos h]

/-- Witness for C7 at the constant sample `[5, 5]` and the short sample
`[4]`. -/
theorem spec_C7_witness :
    HypCalc.calculate_sample_stats (fun _ => 0) [5, 5]
      = .ok (HypCalc.sampleMean [5, 5], HypCalc.sampleVariance [5, 5],
             (fun _ => (0 : ℚ)) (HypCalc.sampleVariance [5, 5]), 2)
    ∧ HypCalc.sampleVariance [5, 5] = 0
    ∧ HypCalc.calculate_sample_stats (fun _ => 0) [4] = .error .insufficientSampleSize := by
  refine ⟨((spec_C7 (fun _ => 0) [5, 5]).1 (by decide)).1,
    ((spec_C7 (fun _ => 0) [5, 5]).2.1 5 ?_ (by decide)).1,
    (spec_C7 (fun _ => 0) [4]).2.2 (by decide)⟩
  intro x hx
  simp at hx
  exact hx

/-- C9: when a raw sample is supplied alongside summary-statistic
arguments, the sample silently wins: the summary values are overwritten by
the statistics derived from the sample, and the call returns exactly what
a sample-only call returns.  Stated for all seven dual-mode procedures of
src/hypothesis_calc.py. -/
theorem spec_C9 :
    (∀ (sqrt : ℚ → ℚ) (tppf : ℚ → ℚ → ℚ) (xb sv : ℚ) (nv : ℕ)
        (mu alpha : Option ℚ) (smp : List ℚ),
      HypCalc.test_mean_unknown_variance sqrt tppf (some xb) (some sv) (some nv) mu alpha (some smp)
        = HypCalc.test_mean_unknown_variance sqrt tppf none none none mu alpha (some smp))
    ∧ (∀ (sqrt : ℚ → ℚ) (tppf : ℚ → ℚ → ℚ) (x1 x2 v1 v2 : ℚ) (m1 m2 : ℕ)
        (alpha : Option ℚ) (smp1 smp2 : List ℚ),
      HypCalc.test_diff_means_equal_variances sqrt tppf (some x1) (some x2) (some v1) (some v2)
          (some m1) (some m2) alpha (some smp1) (some smp2)
        = HypCalc.test_diff_means_equal_variances sqrt tppf none none none none none none alpha
            (some smp1) (some smp2))
    ∧ (∀ (sqrt : ℚ → ℚ) (tppf : ℚ → ℚ → ℚ) (x1 x2 v1 v2 : ℚ) (m1 m2 : ℕ)
        (alpha : Option ℚ) (smp1 smp2 : List ℚ),
      HypCalc.test_diff_means_welch sqrt tppf (some x1) (some x2) (some v1) (some v2)
          (some m1) (some m2) alpha (some smp1) (some smp2)
        = HypCalc.test_diff_means_welch sqrt tppf none none none none none none alpha
            (some smp1) (some smp2))
    ∧ (∀ (sqrt : ℚ → ℚ) (tppf : ℚ → ℚ → ℚ) (db sd : ℚ) (nv : ℕ) (delta : ℚ)
        (alpha : Option ℚ) (smp : List ℚ),
      HypCalc.test_paired_samples sqrt tppf (some db) (some sd) (some nv) delta alpha (some smp)
        = HypCalc.test_paired_samples sqrt tppf none none none delta alpha (some smp))
    ∧ (∀ (sqrt : ℚ → ℚ) (normppf : ℚ → ℚ) (xb : ℚ) (sigma : Option ℚ) (nv : ℕ)
        (mu alpha : Option ℚ) (smp : List ℚ),
      HypCalc.test_mean_known_variance sqrt normppf (some xb) sigma (some nv) mu alpha (some smp)
        = HypCalc.test_mean_known_variance sqrt normppf none sigma none mu alpha (some smp))
    ∧ (∀ (sqrt : ℚ → ℚ) (chi2ppf : ℚ → ℚ → ℚ) (v : ℚ) (s0 : Option ℚ) (nv : ℕ)
        (alpha : Option ℚ) (smp : List ℚ),
      HypCalc.test_variance sqrt chi2ppf (some v) s0 (some nv) alpha (some smp)
        = HypCalc.test_variance sqrt chi2ppf none s0 none alpha (some smp))
    ∧ (∀ (sqrt : ℚ → ℚ) (fppf : ℚ → ℚ → ℚ → ℚ) (v1 v2 : ℚ) (m1 m2 : ℕ)
        (alpha : Option ℚ) (smp1 smp2 : List ℚ),
      HypCalc.test_diff_variances sqrt fppf (some v1) (some v2) (some m1) (some m2) alpha
          (some smp1) (some smp2)
        = HypCalc.test_diff_variances sqrt fppf none none none none alpha
            (some smp1) (some smp2)) :=
  ⟨fun _ _ _ _ _ _ _ _ => rfl, fun _ _ _ _ _ _ _ _ _ _ _ => rfl,
   fun _ _ _ _ _ _ _ _ _ _ _ => rfl, fun _ _ _ _ _ _ _ _ => rfl,
   fun _ _ _ _ _ _ _ _ => rfl, fun _ _ _ _ _ _ _ => rfl,
   fun _ _ _ _ _ _ _ _ _ => rfl⟩

/-- C10: with both success counts supplied but `n_1` absent,
`test_diff_proportions` fails at the unguarded division `successes / n`
(a Python `TypeError`) before the incomplete-input check, so the error is
not the incomplete-input `ValueError`. -/
theorem spec_C10 :
    HypCalc.test_diff_proportions (fun q => q) (fun q => q) none none none (some 30)
        (some (1/20)) (some 10) (some 12) = .error .typeError
    ∧ ErrKind.typeError ≠ ErrKind.incompleteInput :=
  ⟨rfl, by decide⟩

/-- C1: for every dual-mode test family, a raw-sample call on samples of
length `≥ 2` returns exactly the same result mapping as a summary-mode
call supplied with the statistics (`mean`, variance `S²`, standard
deviation `S = np.sqrt S²`, count) that `calculate_sample_stats` computes
from the same samples, for every significance level and hypothesis
parameter. -/
theorem spec_C1 :
    (∀ (sqrt : ℚ → ℚ) (tppf : ℚ → ℚ → ℚ) (smp : List ℚ), 2 ≤ smp.length →
      ∀ mu alpha : Option ℚ,
      HypCalc.test_mean_unknown_variance sqrt tppf none none none mu alpha (some smp)
        = HypCalc.test_mean_unknown_variance sqrt tppf (some (HypCalc.sampleMean smp))
            (some (sqrt (HypCalc.sampleVariance smp))) (some smp.length) mu alpha none)
    ∧ (∀ (sqrt : ℚ → ℚ) (tppf : ℚ → ℚ → ℚ) (smp1 smp2 : List ℚ),
        2 ≤ smp1.length → 2 ≤ smp2.length → ∀ alpha : Option ℚ,
      HypCalc.test_diff_means_equal_variances sqrt tppf none none none none none none alpha
          (some smp1) (some smp2)
        = HypCalc.test_diff_means_equal_variances sqrt tppf
            (some (HypCalc.sampleMean smp1)) (some (HypCalc.sampleMean smp2))
            (some (HypCalc.sampleVariance smp1)) (some (HypCalc.sampleVariance smp2))
            (some smp1.length) (some smp2.length) alpha none none)
    ∧ (∀ (sqrt : ℚ → ℚ) (tppf : ℚ → ℚ → ℚ) (smp1 smp2 : List ℚ),
        2 ≤ smp1.length → 2 ≤ smp2.length → ∀ alpha : Option ℚ,
      HypCalc.test_diff_means_welch sqrt tppf none none none none none none alpha
          (some smp1) (some smp2)
        = HypCalc.test_diff_means_welch sqrt tppf
            (some (HypCalc.sampleMean smp1)) (some (HypCalc.sampleMean smp2))
            (some (HypCalc.sampleVariance smp1)) (some (HypCalc.sampleVariance smp2))
            (some smp1.length) (some smp2.length) alpha none none)
    ∧ (∀ (sqrt : ℚ → ℚ) (tppf : ℚ → ℚ → ℚ) (smp : List ℚ), 2 ≤ smp.length →
        ∀ (delta : ℚ) (alpha : Option ℚ),
      HypCalc.test_paired_samples sqrt tppf none none none delta alpha (some smp)
        = HypCalc.test_paired_samples sqrt tppf (some (HypCalc.sampleMean smp))
            (some (sqrt (HypCalc.sampleVariance smp))) (some smp.length) delta alpha none)
    ∧ (∀ (sqrt : ℚ → ℚ) (normppf : ℚ → ℚ) (smp : List ℚ), 2 ≤ smp.length →
        ∀ sigma mu alpha : Option ℚ,
      HypCalc.test_mean_known_variance sqrt normppf none sigma none mu alpha (some smp)
        = HypCalc.test_mean_known_variance sqrt normppf (some (HypCalc.sampleMean smp)) sigma
            (some smp.length) mu alpha none)
    ∧ (∀ (sqrt : ℚ → ℚ) (chi2ppf : ℚ → ℚ → ℚ) (smp : List ℚ), 2 ≤ smp.length →
        ∀ s0 alpha : Option ℚ,
      HypCalc.test_variance sqrt chi2ppf none s0 none alpha (some smp)
        = HypCalc.test_variance sqrt chi2ppf (some (HypCalc.sampleVariance smp)) s0
            (some smp.length) alpha none)
    ∧ (∀ (sqrt : ℚ → ℚ) (fppf : ℚ → ℚ → ℚ → ℚ) (smp1 smp2 : List ℚ),
        2 ≤ smp1.length → 2 ≤ smp2.length → ∀ alpha : Option ℚ,
      HypCalc.test_diff_variances sqrt fppf none none none none alpha (some smp1) (some smp2)
        = HypCalc.test_diff_variances sqrt fppf
            (some (HypCalc.sampleVariance smp1)) (some (HypCalc.sampleVariance smp2))
            (some smp1.length) (some smp2.length) alpha none none) := by
  refine ⟨fun sqrt tppf smp h mu alpha => ?_,
    fun sqrt tppf smp1 smp2 h1 h2 alpha => ?_,
    fun sqrt tppf smp1 smp2 h1 h2 alpha => ?_,
    fun sqrt tppf smp h delta alpha => ?_,
    fun sqrt normppf smp h sigma mu alpha => ?_,
    fun sqrt chi2ppf smp h s0 alpha => ?_,
    fun sqrt fppf smp1 smp2 h1 h2 alpha => ?_⟩
  · simp [HypCalc.test_mean_unknown_variance, HypCalc.calculate_sample_stats_ok sqrt smp h]
  · simp [HypCalc.test_diff_means_equal_variances,
      HypCalc.calculate_sample_stats_ok sqrt smp1 h1,
      HypCalc.calculate_sample_stats_ok sqrt smp2 h2]
  · simp [HypCalc.test_diff_means_welch,
      HypCalc.calculate_sample_stats_ok sqrt smp1 h1,
      HypCalc.calculate_sample_stats_ok sqrt smp2 h2]
  · simp [HypCalc.test_paired_samples, HypCalc.calculate_sample_stats_ok sqrt smp h]
  · simp [HypCalc.test_mean_known_variance, HypCalc.sampleMean]
  · simp [HypCalc.test_variance, HypCalc.calculate_sample_stats_ok sqrt smp h]
  · simp [HypCalc.test_diff_variances,
      HypCalc.calculate_sample_stats_ok sqrt smp1 h1,
      HypCalc.calculate_sample_stats_ok sqrt smp2 h2]

/-- Witness for C1 at the samples `[1, 2]` and `[1, 3]`. -/
theorem spec_C1_witness :
    HypCalc.test_mean_unknown_variance id (fun _ _ => 0) none none none (some 0) (some (1/20))
        (some [1, 2])
      = HypCalc.test_mean_unknown_variance id (fun _ _ => 0) (some (HypCalc.sampleMean [1, 2]))
          (some (id (HypCalc.sampleVariance [1, 2]))) (some 2) (some 0) (some (1/20)) none
    ∧ HypCalc.test_diff_means_equal_variances id (fun _ _ => 0) none none none none none none
        (some (1/20)) (some [1, 2]) (some [1, 3])
      = HypCalc.test_diff_means_equal_variances id (fun _ _ => 0)
          (some (HypCalc.sampleMean [1, 2])) (some (HypCalc.sampleMean [1, 3]))
          (some (HypCalc.sampleVariance [1, 2])) (some (HypCalc.sampleVariance [1, 3]))
          (some 2) (some 2) (some (1/20)) none none
    ∧ HypCalc.test_diff_means_welch id (fun _ _ => 0) none none none none none none
        (some (1/20)) (some [1, 2]) (some [1, 3])
      = HypCalc.test_diff_means_welch id (fun _ _ => 0)
          (some (HypCalc.sampleMean [1, 2])) (some (HypCalc.sampleMean [1, 3]))
          (some (HypCalc.sampleVariance [1, 2])) (some (HypCalc.sampleVariance [1, 3]))
          (some 2) (some 2) (some (1/20)) none none
    ∧ HypCalc.test_paired_samples id (fun _ _ => 0) none none none 0 (some (1/20)) (some [1, 2])
      = HypCalc.test_paired_samples id (fun _ _ => 0) (some (HypCalc.sampleMean [1, 2]))
          (some (id (HypCalc.sampleVariance [1, 2]))) (some 2) 0 (some (1/20)) none
    ∧ HypCalc.test_mean_known_variance id (fun _ => 0) none (some 1) none (some 0) (some (1/20))
        (some [1, 2])
      = HypCalc.test_mean_known_variance id (fun _ => 0) (some (HypCalc.sampleMean [1, 2]))
          (some 1) (some 2) (some 0) (some (1/20)) none
    ∧ HypCalc.test_variance id (fun _ _ => 0) none (some 1) none (some (1/20)) (some [1, 2])
      = HypCalc.test_variance id (fun _ _ => 0) (some (HypCalc.sampleVariance [1, 2])) (some 1)
          (some 2) (some (1/20)) none
    ∧ HypCalc.test_diff_variances id (fun _ _ _ => 0) none none none none (some (1/20))
        (some [1, 2]) (some [1, 3])
      = HypCalc.test_diff_variances id (fun _ _ _ => 0)
          (some (HypCalc.sampleVariance [1, 2])) (some (HypCalc.sampleVariance [1, 3]))
          (some 2) (some 2) (some (1/20)) none none :=
  ⟨spec_C1.1 id _ [1, 2] (by decide) _ _,
   spec_C1.2.1 id _ [1, 2] [1, 3] (by decide) (by decide) _,
   spec_C1.2.2.1 id _ [1, 2] [1, 3] (by decide) (by decide) _,
   spec_C1.2.2.2.1 id _ [1, 2] (by decide) _ _,
   spec_C1.2.2.2.2.1 id _ [1, 2] (by decide) _ _ _,
   spec_C1.2.2.2.2.2.1 id _ [1, 2] (by decide) _ _,
   spec_C1.2.2.2.2.2.2 id _ [1, 2] [1, 3] (by decide) (by decide) _⟩

/-- C4: for every t-family and z-family procedure of the per-tail-type
variant and every `α ∈ (0,1)` (with the inputs passing validation), the
lower-tailed critical value returned is exactly the negation of the
upper-tailed critical value at the same `α`: both are built from the same
`quantile(1-α)` call, the lower-tailed one with a sign flip, so the
identity holds by construction for an arbitrary quantile provider. -/
theorem spec_C4 :
    (∀ (sqrt : ℚ → ℚ) (tppf : ℚ → ℚ → ℚ) (xb mu sv nv a : ℚ),
      1 < nv → 0 < a → a < 1 → 0 ≤ sv →
      (Calc.t_media_var_desconhecida sqrt tppf xb mu sv nv a .unilateralEsq).toOption.map
          (fun r => r.t_critico) = some (-(tppf (1 - a) (nv - 1)))
      ∧ (Calc.t_media_var_desconhecida sqrt tppf xb mu sv nv a .unilateralDir).toOption.map
          (fun r => r.t_critico) = some (tppf (1 - a) (nv - 1)))
    ∧ (∀ (sqrt : ℚ → ℚ) (normppf : ℚ → ℚ) (xb mu sg nv a : ℚ),
      1 < nv → 0 < a → a < 1 → 0 ≤ sg →
      (Calc.z_media_var_conhecida sqrt normppf xb mu sg nv a .unilateralEsq).toOption.map
          (fun r => r.z_critico) = some (-(normppf (1 - a)))
      ∧ (Calc.z_media_var_conhecida sqrt normppf xb mu sg nv a .unilateralDir).toOption.map
          (fun r => r.z_critico) = some (normppf (1 - a)))
    ∧ (∀ (sqrt : ℚ → ℚ) (tppf : ℚ → ℚ → ℚ) (x1 x2 s1 s2 n1 n2 a : ℚ),
      1 < n1 → 1 < n2 → 0 < a → a < 1 → 0 ≤ s1 → 0 ≤ s2 →
      (Calc.t_dif_medias_var_iguais sqrt tppf x1 x2 s1 s2 n1 n2 a .unilateralEsq).toOption.map
          (fun r => r.t_critico) = some (-(tppf (1 - a) (n1 + n2 - 2)))
      ∧ (Calc.t_dif_medias_var_iguais sqrt tppf x1 x2 s1 s2 n1 n2 a .unilateralDir).toOption.map
          (fun r => r.t_critico) = some (tppf (1 - a) (n1 + n2 - 2)))
    ∧ (∀ (sqrt : ℚ → ℚ) (tppf : ℚ → ℚ → ℚ) (x1 x2 s1 s2 n1 n2 a : ℚ),
      1 < n1 → 1 < n2 → 0 < a → a < 1 → 0 ≤ s1 → 0 ≤ s2 →
      (Calc.t_welch_dif_medias sqrt tppf x1 x2 s1 s2 n1 n2 a .unilateralEsq).toOption.map
          (fun r => r.t_critico)
        = some (-(tppf (1 - a) (HypCalc.welch_df (s1 ^ 2) n1 (s2 ^ 2) n2)))
      ∧ (Calc.t_welch_dif_medias sqrt tppf x1 x2 s1 s2 n1 n2 a .unilateralDir).toOption.map
          (fun r => r.t_critico)
        = some (tppf (1 - a) (HypCalc.welch_df (s1 ^ 2) n1 (s2 ^ 2) n2)))
    ∧ (∀ (sqrt : ℚ → ℚ) (tppf : ℚ → ℚ → ℚ) (db delta sd nv a : ℚ),
      1 < nv → 0 < a → a < 1 → 0 ≤ sd →
      (Calc.t_pareado sqrt tppf db delta sd nv a .unilateralEsq).toOption.map
          (fun r => r.t_critico) = some (-(tppf (1 - a) (nv - 1)))
      ∧ (Calc.t_pareado sqrt tppf db delta sd nv a .unilateralDir).toOption.map
          (fun r => r.t_critico) = some (tppf (1 - a) (nv - 1)))
    ∧ (∀ (sqrt : ℚ → ℚ) (normppf : ℚ → ℚ) (x1 x2 sg1 sg2 n1 n2 a : ℚ),
      1 < n1 → 1 < n2 → 0 < a → a < 1 → 0 ≤ sg1 → 0 ≤ sg2 →
      (Calc.z_dif_medias_var_conhecidas sqrt normppf x1 x2 sg1 sg2 n1 n2 a
          .unilateralEsq).toOption.map (fun r => r.z_critico) = some (-(normppf (1 - a)))
      ∧ (Calc.z_dif_medias_var_conhecidas sqrt normppf x1 x2 sg1 sg2 n1 n2 a
          .unilateralDir).toOption.map (fun r => r.z_critico) = some (normppf (1 - a)))
    ∧ (∀ (sqrt : ℚ → ℚ) (normppf : ℚ → ℚ) (ph p0 nv a : ℚ),
      1 < nv → 0 < a → a < 1 → 0 ≤ ph → ph ≤ 1 → 0 ≤ p0 → p0 ≤ 1 →
      (Calc.z_proporcao sqrt normppf ph p0 nv a .unilateralEsq).toOption.map
          (fun r => r.z_critico) = some (-(normppf (1 - a)))
      ∧ (Calc.z_proporcao sqrt normppf ph p0 nv a .unilateralDir).toOption.map
          (fun r => r.z_critico) = some (normppf (1 - a)))
    ∧ (∀ (sqrt : ℚ → ℚ) (normppf : ℚ → ℚ) (p1 p2 n1 n2 a : ℚ),
      1 < n1 → 1 < n2 → 0 < a → a < 1 → 0 ≤ p1 → p1 ≤ 1 → 0 ≤ p2 → p2 ≤ 1 →
      (Calc.z_dif_proporcoes sqrt normppf p1 p2 n1 n2 a .unilateralEsq).toOption.map
          (fun r => r.z_critico) = some (-(normppf (1 - a)))
      ∧ (Calc.z_dif_proporcoes sqrt normppf p1 p2 n1 n2 a .unilateralDir).toOption.map
          (fun r => r.z_critico) = some (normppf (1 - a))) := by
  refine ⟨fun sqrt tppf xb mu sv nv a hn h0 h1 hs => ?_,
    fun sqrt normppf xb mu sg nv a hn h0 h1 hs => ?_,
    fun sqrt tppf x1 x2 s1 s2 n1 n2 a hn1 hn2 h0 h1 hs1 hs2 => ?_,
    fun sqrt tppf x1 x2 s1 s2 n1 n2 a hn1 hn2 h0 h1 hs1 hs2 => ?_,
    fun sqrt tppf db delta sd nv a hn h0 h1 hs => ?_,
    fun sqrt normppf x1 x2 sg1 sg2 n1 n2 a hn1 hn2 h0 h1 hs1 hs2 => ?_,
    fun sqrt normppf ph p0 nv a hn h0 h1 hp0 hp1 hq0 hq1 => ?_,
    fun sqrt normppf p1 p2 n1 n2 a hn1 hn2 h0 h1 hp0 hp1 hq0 hq1 => ?_⟩
  · constructor <;> simp [Calc.t_media_var_desconhecida, Calc.validar_parametros_ok _ _ _ hn h0 h1 hs] <;>
      exact ⟨_, rfl, rfl⟩
  · constructor <;> simp [Calc.z_media_var_conhecida, Calc.validar_parametros_ok _ _ _ hn h0 h1 hs] <;>
      exact ⟨_, rfl, rfl⟩
  · constructor <;> simp [Calc.t_dif_medias_var_iguais, Calc.validar_parametros_ok _ _ _ hn1 h0 h1 hs1,
        Calc.validar_parametros_ok _ _ _ hn2 h0 h1 hs2] <;>
      exact ⟨_, rfl, rfl⟩
  · constructor <;> simp [Calc.t_welch_dif_medias, HypCalc.welch_df,
        Calc.validar_parametros_ok _ _ _ hn1 h0 h1 hs1,
        Calc.validar_parametros_ok _ _ _ hn2 h0 h1 hs2] <;>
      exact ⟨_, rfl, rfl⟩
  · constructor <;> simp [Calc.t_pareado, Calc.validar_parametros_ok _ _ _ hn h0 h1 hs] <;>
      exact ⟨_, rfl, rfl⟩
  · constructor <;> simp [Calc.z_dif_medias_var_conhecidas, Calc.validar_parametros_ok _ _ _ hn1 h0 h1 hs1,
        Calc.validar_parametros_ok _ _ _ hn2 h0 h1 hs2] <;>
      exact ⟨_, rfl, rfl⟩
  · constructor <;> simp [Calc.z_proporcao, Calc.validar_parametros_ok_sem_s _ _ hn h0 h1,
        hp0, hp1, hq0, hq1] <;>
      exact ⟨_, rfl, rfl⟩
  · constructor <;> simp [Calc.z_dif_proporcoes, Calc.validar_parametros_ok_sem_s _ _ hn1 h0 h1,
        Calc.validar_parametros_ok_sem_s _ _ hn2 h0 h1, hp0, hp1, hq0, hq1] <;>
      exact ⟨_, rfl, rfl⟩

/-- Witness for C4 at concrete valid inputs for each of the eight
procedures. -/
theorem spec_C4_witness :
    ((Calc.t_media_var_desconhecida id (fun _ _ => 1) 0 0 1 5 (1/20) .unilateralEsq).toOption.map
        (fun r => r.t_critico) = some (-((fun _ _ => (1:ℚ)) (1 - 1/20) (5 - 1)))
      ∧ (Calc.t_media_var_desconhecida id (fun _ _ => 1) 0 0 1 5 (1/20) .unilateralDir).toOption.map
        (fun r => r.t_critico) = some ((fun _ _ => (1:ℚ)) (1 - 1/20) (5 - 1)))
    ∧ ((Calc.z_media_var_conhecida id (fun _ => 1) 0 0 1 5 (1/20) .unilateralEsq).toOption.map
        (fun r => r.z_critico) = some (-((fun _ => (1:ℚ)) (1 - 1/20)))
      ∧ (Calc.z_media_var_conhecida id (fun _ => 1) 0 0 1 5 (1/20) .unilateralDir).toOption.map
        (fun r => r.z_critico) = some ((fun _ => (1:ℚ)) (1 - 1/20)))
    ∧ ((Calc.t_dif_medias_var_iguais id (fun _ _ => 1) 0 0 1 1 5 6 (1/20) .unilateralEsq).toOption.map
        (fun r => r.t_critico) = some (-((fun _ _ => (1:ℚ)) (1 - 1/20) (5 + 6 - 2)))
      ∧ (Calc.t_dif_medias_var_iguais id (fun _ _ => 1) 0 0 1 1 5 6 (1/20) .unilateralDir).toOption.map
        (fun r => r.t_critico) = some ((fun _ _ => (1:ℚ)) (1 - 1/20) (5 + 6 - 2)))
    ∧ ((Calc.t_welch_dif_medias id (fun _ _ => 1) 0 0 1 1 5 6 (1/20) .unilateralEsq).toOption.map
        (fun r => r.t_critico)
        = some (-((fun _ _ => (1:ℚ)) (1 - 1/20) (HypCalc.welch_df (1 ^ 2) 5 (1 ^ 2) 6)))
      ∧ (Calc.t_welch_dif_medias id (fun _ _ => 1) 0 0 1 1 5 6 (1/20) .unilateralDir).toOption.map
        (fun r => r.t_critico)
        = some ((fun _ _ => (1:ℚ)) (1 - 1/20) (HypCalc.welch_df (1 ^ 2) 5 (1 ^ 2) 6)))
    ∧ ((Calc.t_pareado id (fun _ _ => 1) 0 0 1 5 (1/20) .unilateralEsq).toOption.map
        (fun r => r.t_critico) = some (-((fun _ _ => (1:ℚ)) (1 - 1/20) (5 - 1)))
      ∧ (Calc.t_pareado id (fun _ _ => 1) 0 0 1 5 (1/20) .unilateralDir).toOption.map
        (fun r => r.t_critico) = some ((fun _ _ => (1:ℚ)) (1 - 1/20) (5 - 1)))
    ∧ ((Calc.z_dif_medias_var_conhecidas id (fun _ => 1) 0 0 1 1 5 6 (1/20) .unilateralEsq).toOption.map
        (fun r => r.z_critico) = some (-((fun _ => (1:ℚ)) (1 - 1/20)))
      ∧ (Calc.z_dif_medias_var_conhecidas id (fun _ => 1) 0 0 1 1 5 6 (1/20) .unilateralDir).toOption.map
        (fun r => r.z_critico) = some ((fun _ => (1:ℚ)) (1 - 1/20)))
    ∧ ((Calc.z_proporcao id (fun _ => 1) (1/2) (1/2) 5 (1/20) .unilateralEsq).toOption.map
        (fun r => r.z_critico) = some (-((fun _ => (1:ℚ)) (1 - 1/20)))
      ∧ (Calc.z_proporcao id (fun _ => 1) (1/2) (1/2) 5 (1/20) .unilateralDir).toOption.map
        (fun r => r.z_critico) = some ((fun _ => (1:ℚ)) (1 - 1/20)))
    ∧ ((Calc.z_dif_proporcoes id (fun _ => 1) (1/2) (1/2) 5 6 (1/20) .unilateralEsq).toOption.map
        (fun r => r.z_critico) = some (-((fun _ => (1:ℚ)) (1 - 1/20)))
      ∧ (Calc.z_dif_proporcoes id (fun _ => 1) (1/2) (1/2) 5 6 (1/20) .unilateralDir).toOption.map
        (fun r => r.z_critico) = some ((fun _ => (1:ℚ)) (1 - 1/20))) :=
  ⟨spec_C4.1 id _ 0 0 1 5 (1/20) (by norm_num) (by norm_num) (by norm_num) (by norm_num),
   spec_C4.2.1 id _ 0 0 1 5 (1/20) (by norm_num) (by norm_num) (by norm_num) (by norm_num),
   spec_C4.2.2.1 id _ 0 0 1 1 5 6 (1/20) (by norm_num) (by norm_num) (by norm_num) (by norm_num)
     (by norm_num) (by norm_num),
   spec_C4.2.2.2.1 id _ 0 0 1 1 5 6 (1/20) (by norm_num) (by norm_num) (by norm_num) (by norm_num)
     (by norm_num) (by norm_num),
   spec_C4.2.2.2.2.1 id _ 0 0 1 5 (1/20) (by norm_num) (by norm_num) (by norm_num) (by norm_num),
   spec_C4.2.2.2.2.2.1 id _ 0 0 1 1 5 6 (1/20) (by norm_num) (by norm_num) (by norm_num)
     (by norm_num) (by norm_num) (by norm_num),
   spec_C4.2.2.2.2.2.2.1 id _ (1/2) (1/2) 5 (1/20) (by norm_num) (by norm_num) (by norm_num)
     (by norm_num) (by norm_num) (by norm_num) (by norm_num),
   spec_C4.2.2.2.2.2.2.2 id _ (1/2) (1/2) 5 6 (1/20) (by norm_num) (by norm_num) (by norm_num)
     (by norm_num) (by norm_num) (by norm_num) (by norm_num) (by norm_num)⟩

/-- Counterexample to C2: at the valid summary inputs `S₁² = 4, n₁ = 10`,
`S₂² = 9, n₂ = 15` the Welch degrees of freedom computed by the code (with
its `(n + 1)` denominators) is `4400/163 ≈ 26.99`, which exceeds the
claimed upper bound `n₁ + n₂ - 2 = 23`. -/
theorem spec_C2_counterexample :
    HypCalc.welch_df 4 10 9 15 = 4400/163
    ∧ (10 : ℚ) + 15 - 2 < HypCalc.welch_df 4 10 9 15 := by
  constructor <;> norm_num [HypCalc.welch_df]

/-- C2 amended: both Welch procedures keep the degrees of freedom
fractional — the quantile is taken at the exact rational value
`ν = (W₁+W₂)²/(W₁²/(n₁+1)+W₂²/(n₂+1))`, never at a truncation — and `ν`
lies between `min n₁ n₂ - 1` and `n₁ + n₂ + 2` (the code's `(n+1)`
denominators push the sharp upper bound to `n₁ + n₂ + 2`, not the claimed
`n₁ + n₂ - 2`). -/
theorem spec_C2_amended :
    (∀ (sqrt : ℚ → ℚ) (tppf : ℚ → ℚ → ℚ) (x1 x2 v1 v2 : ℚ) (m1 m2 : ℕ) (a : ℚ),
      0 < a → a < 1 → 2 ≤ m1 → 2 ≤ m2 → 0 ≤ v1 → 0 ≤ v2 → (v1 ≠ 0 ∨ v2 ≠ 0) →
      (HypCalc.test_diff_means_welch sqrt tppf (some x1) (some x2) (some v1) (some v2)
          (some m1) (some m2) (some a) none none).toOption.map
          (fun r => (r.df, r.t_critico_bilateral, r.t_critico_unilateral))
        = some (round2 (HypCalc.welch_df v1 (m1 : ℚ) v2 (m2 : ℚ)),
                round2 (tppf (1 - a/2) (HypCalc.welch_df v1 (m1 : ℚ) v2 (m2 : ℚ))),
                round2 (tppf (1 - a) (HypCalc.welch_df v1 (m1 : ℚ) v2 (m2 : ℚ))))
      ∧ min (m1 : ℚ) (m2 : ℚ) - 1 ≤ HypCalc.welch_df v1 (m1 : ℚ) v2 (m2 : ℚ)
      ∧ HypCalc.welch_df v1 (m1 : ℚ) v2 (m2 : ℚ) ≤ (m1 : ℚ) + (m2 : ℚ) + 2)
    ∧ (∀ (sqrt : ℚ → ℚ) (tppf : ℚ → ℚ → ℚ) (x1 x2 s1 s2 n1 n2 a : ℚ),
      0 < a → a < 1 → 2 ≤ n1 → 2 ≤ n2 → 0 ≤ s1 → 0 ≤ s2 → (s1 ≠ 0 ∨ s2 ≠ 0) →
      (Calc.t_welch_dif_medias sqrt tppf x1 x2 s1 s2 n1 n2 a .bilateral).toOption.map
          (fun r => (r.gl_welch, r.t_critico))
        = some (HypCalc.welch_df (s1 ^ 2) n1 (s2 ^ 2) n2,
                tppf (1 - a/2) (HypCalc.welch_df (s1 ^ 2) n1 (s2 ^ 2) n2))
      ∧ min n1 n2 - 1 ≤ HypCalc.welch_df (s1 ^ 2) n1 (s2 ^ 2) n2
      ∧ HypCalc.welch_df (s1 ^ 2) n1 (s2 ^ 2) n2 ≤ n1 + n2 + 2) := by
  constructor
  · intro sqrt tppf x1 x2 v1 v2 m1 m2 a h0 h1 hm1 hm2 hv1 hv2 hne
    have hb := HypCalc.welch_nu_bounds v1 v2 (m1 : ℚ) (m2 : ℚ)
      (by exact_mod_cast hm1) (by exact_mod_cast hm2) hv1 hv2 hne
    refine ⟨?_, by linarith [hb.1, min_le_left (m1 : ℚ) (m2 : ℚ)], hb.2⟩
    simp [HypCalc.test_diff_means_welch, HypCalc.test_diff_means_welch_core,
      HypCalc.validate_alpha_ok _ h0 h1, HypCalc.validate_sample_size_ok _ hm1,
      HypCalc.validate_sample_size_ok _ hm2, HypCalc.welch_df] <;>
      exact ⟨_, rfl, rfl, rfl, rfl⟩
  · intro sqrt tppf x1 x2 s1 s2 n1 n2 a h0 h1 hn1 hn2 hs1 hs2 hne
    have hne2 : s1 ^ 2 ≠ 0 ∨ s2 ^ 2 ≠ 0 := by
      rcases hne with h | h
      · exact Or.inl (pow_ne_zero 2 h)
      · exact Or.inr (pow_ne_zero 2 h)
    have hb := HypCalc.welch_nu_bounds (s1 ^ 2) (s2 ^ 2) n1 n2 hn1 hn2
      (sq_nonneg s1) (sq_nonneg s2) hne2
    have hn1a : (1 : ℚ) < n1 := by linarith
    have hn2a : (1 : ℚ) < n2 := by linarith
    refine ⟨?_, by linarith [hb.1], hb.2⟩
    simp [Calc.t_welch_dif_medias, HypCalc.welch_df,
      Calc.validar_parametros_ok _ _ _ hn1a h0 h1 hs1,
      Calc.validar_parametros_ok _ _ _ hn2a h0 h1 hs2] <;>
      exact ⟨_, rfl, rfl, rfl⟩

/-- Witness for the amended C2 at `S₁² = 4, n₁ = 10, S₂² = 9, n₂ = 15`,
`α = 1/20`. -/
theorem spec_C2_amended_witness :
    ((HypCalc.test_diff_means_welch id (fun _ _ => 0) (some 10) (some 8) (some 4) (some 9)
        (some 10) (some 15) (some (1/20)) none none).toOption.map
        (fun r => (r.df, r.t_critico_bilateral, r.t_critico_unilateral))
      = some (round2 (HypCalc.welch_df 4 (10 : ℚ) 9 (15 : ℚ)),
              round2 ((fun _ _ => (0:ℚ)) (1 - (1/20)/2) (HypCalc.welch_df 4 (10 : ℚ) 9 (15 : ℚ))),
              round2 ((fun _ _ => (0:ℚ)) (1 - 1/20) (HypCalc.welch_df 4 (10 : ℚ) 9 (15 : ℚ))))
      ∧ min ((10 : ℕ) : ℚ) ((15 : ℕ) : ℚ) - 1 ≤ HypCalc.welch_df 4 (10 : ℚ) 9 (15 : ℚ)
      ∧ HypCalc.welch_df 4 (10 : ℚ) 9 (15 : ℚ) ≤ ((10 : ℕ) : ℚ) + ((15 : ℕ) : ℚ) + 2)
    ∧ ((Calc.t_welch_dif_medias id (fun _ _ => 0) 10 8 2 3 10 15 (1/20) .bilateral).toOption.map
        (fun r => (r.gl_welch, r.t_critico))
      = some (HypCalc.welch_df (2 ^ 2) 10 (3 ^ 2) 15,
              (fun _ _ => (0:ℚ)) (1 - (1/20)/2) (HypCalc.welch_df (2 ^ 2) 10 (3 ^ 2) 15))
      ∧ min (10 : ℚ) 15 - 1 ≤ HypCalc.welch_df (2 ^ 2) 10 (3 ^ 2) 15
      ∧ HypCalc.welch_df (2 ^ 2) 10 (3 ^ 2) 15 ≤ (10 : ℚ) + 15 + 2) :=
  ⟨spec_C2_amended.1 id _ 10 8 4 9 10 15 (1/20) (by norm_num) (by norm_num) (by norm_num)
     (by norm_num) (by norm_num) (by norm_num) (Or.inl (by norm_num)),
   spec_C2_amended.2 id _ 10 8 2 3 10 15 (1/20) (by norm_num) (by norm_num) (by norm_num)
     (by norm_num) (by norm_num) (by norm_num) (Or.inl (by norm_num))⟩

/-- C5: the Welch procedure computes the statistic as
`(x̄₁ - x̄₂)/√(W₁+W₂)` with `Wᵢ = Sᵢ²/nᵢ` and the degrees of freedom as
`(W₁+W₂)²/(W₁²/(n₁+1)+W₂²/(n₂+1))`; at the summary inputs `S₁² = 4,
n₁ = 10, S₂² = 9, n₂ = 15, x̄₁ = 10, x̄₂ = 8` the returned statistic is
`2.00` and the returned degrees of freedom are `26.99`. -/
theorem spec_C5 :
    (∀ (sqrt : ℚ → ℚ) (tppf : ℚ → ℚ → ℚ) (x1 x2 v1 v2 : ℚ) (m1 m2 : ℕ) (a : ℚ),
      0 < a → a < 1 → 2 ≤ m1 → 2 ≤ m2 →
      (HypCalc.test_diff_means_welch sqrt tppf (some x1) (some x2) (some v1) (some v2)
          (some m1) (some m2) (some a) none none).toOption.map
          (fun r => (r.t_calc, r.df))
        = some (round2 ((x1 - x2) / sqrt (v1 / (m1 : ℚ) + v2 / (m2 : ℚ))),
                round2 (HypCalc.welch_df v1 (m1 : ℚ) v2 (m2 : ℚ))))
    ∧ (∀ (sqrt : ℚ → ℚ) (tppf : ℚ → ℚ → ℚ) (a : ℚ), sqrt 1 = 1 → 0 < a → a < 1 →
      (HypCalc.test_diff_means_welch sqrt tppf (some 10) (some 8) (some 4) (some 9)
          (some 10) (some 15) (some a) none none).toOption.map
          (fun r => (r.t_calc, r.df))
        = some (2, 2699/100)) := by
  have key : ∀ (sqrt : ℚ → ℚ) (tppf : ℚ → ℚ → ℚ) (x1 x2 v1 v2 : ℚ) (m1 m2 : ℕ) (a : ℚ),
      0 < a → a < 1 → 2 ≤ m1 → 2 ≤ m2 →
      (HypCalc.test_diff_means_welch sqrt tppf (some x1) (some x2) (some v1) (some v2)
          (some m1) (some m2) (some a) none none).toOption.map
          (fun r => (r.t_calc, r.df))
        = some (round2 ((x1 - x2) / sqrt (v1 / (m1 : ℚ) + v2 / (m2 : ℚ))),
                round2 (HypCalc.welch_df v1 (m1 : ℚ) v2 (m2 : ℚ))) := by
    intro sqrt tppf x1 x2 v1 v2 m1 m2 a h0 h1 hm1 hm2
    simp [HypCalc.test_diff_means_welch, HypCalc.test_diff_means_welch_core,
      HypCalc.validate_alpha_ok _ h0 h1, HypCalc.validate_sample_size_ok _ hm1,
      HypCalc.validate_sample_size_ok _ hm2, HypCalc.welch_df] <;>
      exact ⟨_, rfl, rfl, rfl⟩
  refine ⟨key, fun sqrt tppf a hsq h0 h1 => ?_⟩
  rw [key sqrt tppf 10 8 4 9 10 15 a h0 h1 (by norm_num) (by norm_num)]
  have h49 : (4 : ℚ) / ((10 : ℕ) : ℚ) + 9 / ((15 : ℕ) : ℚ) = 1 := by norm_num
  rw [h49, hsq]
  have hwdf : HypCalc.welch_df 4 ((10 : ℕ) : ℚ) 9 ((15 : ℕ) : ℚ) = 4400/163 := by
    norm_num [HypCalc.welch_df]
  rw [hwdf]
  norm_num
  constructor
  · show round2 2 = 2
    norm_num [round2]
  · show round2 (4400/163) = 2699/100
    norm_num [round2]

/-- Witness for C5 at `α = 1/20`, with `np.sqrt` instantiated by a function
sending 1 to 1. -/
theorem spec_C5_witness :
    (HypCalc.test_diff_means_welch id (fun _ _ => 0) (some 10) (some 8) (some 4) (some 9)
        (some 10) (some 15) (some (1/20)) none none).toOption.map
        (fun r => (r.t_calc, r.df))
      = some (2, 2699/100) :=
  spec_C5.2 id _ (1/20) rfl (by norm_num) (by norm_num)

/-- C3, evaluated at the failing input `S₁² = 4, S₂² = 9, n₁ = 5, n₂ = 7,
α = 0.05` (samples with the smaller variance first): the dual-mode variant
`test_diff_variances` returns the two-tailed statistic `round2(4/9) = 0.44`
and takes its two-tailed critical value at the unswapped df pair
`(n₁-1, n₂-1) = (4, 6)` (the quantile provider here projects its first df
argument, so the entry shows `4`), although `max(S₁²,S₂²)/min(S₁²,S₂²) =
9/4 = 2.25` — contradicting its own docstring; the per-tail-type variant
`f_dif_variancias` does implement the claim, returning `9/4` with the df
pair swapped to `(n₂-1, n₁-1)` (the projection shows `n₂-1 = 6`). -/
theorem spec_C3 :
    (HypCalc.test_diff_variances id (fun _ d1 _ => d1) (some 4) (some 9) (some 5) (some 7)
        (some (1/20)) none none).toOption.map (fun r => (r.f_calc, r.f_critico_bilateral))
      = some (round2 (4/9), round2 4)
    ∧ round2 (4/9) = 11/25
    ∧ round2 4 = 4
    ∧ max ((4:ℚ)) 9 / min ((4:ℚ)) 9 = 9/4
    ∧ (11/25 : ℚ) ≠ 9/4
    ∧ (Calc.f_dif_variancias (fun _ d1 _ => d1) 2 3 5 7 (1/20) .bilateral).toOption.map
        (fun r => (r.f_calculado, r.f_critico))
      = some (9/4, 6) := by
  refine ⟨?_, by norm_num [round2], by norm_num [round2], by norm_num, by norm_num, ?_⟩
  · norm_num [HypCalc.test_diff_variances, HypCalc.test_diff_variances_core,
      HypCalc.validate_alpha, HypCalc.validate_sample_size]
    exact ⟨_, rfl, rfl, rfl⟩
  · norm_num [Calc.f_dif_variancias, Calc.validar_parametros, Calc.validar_alpha_s,
      Calc.validar_s]
    exact ⟨_, rfl, rfl, rfl⟩

/-- C8: the two-tailed one-sample variance test returns the two distinct
chi-square quantiles at `α/2` and `1-α/2` with `n-1` degrees of freedom
(the dual-mode variant additionally applies presentation rounding to the
assembled entries); under the distribution provider's contract — a
quantile strictly increasing in `p` and positive on `(0,1)` — the two
values are distinct and not a symmetric `±c` pair. -/
theorem spec_C8 :
    (∀ (sqrt : ℚ → ℚ) (chi2ppf : ℚ → ℚ → ℚ) (v s0 : ℚ) (nv : ℕ) (a : ℚ),
      0 < a → a < 1 → 2 ≤ nv → 0 < s0 →
      (HypCalc.test_variance sqrt chi2ppf (some v) (some s0) (some nv) (some a) none).toOption.map
          (fun r => (r.chi_sq_critico_bilateral_lower, r.chi_sq_critico_bilateral_upper))
        = some (round2 (chi2ppf (a/2) ((nv : ℚ) - 1)), round2 (chi2ppf (1 - a/2) ((nv : ℚ) - 1))))
    ∧ (∀ (chi2ppf : ℚ → ℚ → ℚ) (s s0 n a : ℚ),
      1 < n → 0 < a → a < 1 → 0 ≤ s → 0 < s0 →
      Calc.chi2_variancia chi2ppf s s0 n a .bilateral
        = .ok (.bilateral (pyInt (n - 1)) ((n - 1) * s ^ 2 / s0)
            (chi2ppf (a/2) (n - 1)) (chi2ppf (1 - a/2) (n - 1)) a)
      ∧ ((∀ p q : ℚ, p < q → chi2ppf p (n - 1) < chi2ppf q (n - 1)) →
          chi2ppf (a/2) (n - 1) < chi2ppf (1 - a/2) (n - 1))
      ∧ ((∀ p : ℚ, 0 < p → p < 1 → 0 < chi2ppf p (n - 1)) →
          chi2ppf (a/2) (n - 1) ≠ -(chi2ppf (1 - a/2) (n - 1)))) := by
  constructor
  · intro sqrt chi2ppf v s0 nv a h0 h1 hn hs0
    simp [HypCalc.test_variance, HypCalc.test_variance_core,
      HypCalc.validate_alpha_ok _ h0 h1, HypCalc.validate_sample_size_ok _ hn,
      not_le.mpr hs0] <;>
      exact ⟨_, rfl, rfl, rfl⟩
  · intro chi2ppf s s0 n a hn h0 h1 hs hs0
    refine ⟨?_, fun hmono => hmono _ _ (by linarith), fun hpos => ?_⟩
    · simp [Calc.chi2_variancia, Calc.validar_parametros_ok _ _ _ hn h0 h1 hs,
        not_le.mpr hs0]
    · have hlo := hpos (a/2) (by linarith) (by linarith)
      have hhi := hpos (1 - a/2) (by linarith) (by linarith)
      intro heq
      linarith

/-- Witness for C8 at `S² = 16, σ₀² = 10, n = 20, α = 1/20`, with the
quantile provider instantiated by the first projection (which is strictly
increasing and positive on `(0,1)`). -/
theorem spec_C8_witness :
    ((HypCalc.test_variance id (fun p _ => p) (some 16) (some 10) (some 20) (some (1/20))
        none).toOption.map
        (fun r => (r.chi_sq_critico_bilateral_lower, r.chi_sq_critico_bilateral_upper))
      = some (round2 ((fun p _ => p) ((1/20)/2) (((20 : ℕ) : ℚ) - 1)),
              round2 ((fun p _ => p) (1 - (1/20)/2) (((20 : ℕ) : ℚ) - 1))))
    ∧ Calc.chi2_variancia (fun p _ => p) 4 10 20 (1/20) .bilateral
        = .ok (.bilateral (pyInt ((20 : ℚ) - 1)) (((20 : ℚ) - 1) * 4 ^ 2 / 10)
            ((fun p _ => p) ((1/20)/2) ((20 : ℚ) - 1))
            ((fun p _ => p) (1 - (1/20)/2) ((20 : ℚ) - 1)) (1/20))
    ∧ ((fun p _ => p) ((1/20)/2) ((20 : ℚ) - 1) : ℚ)
        < (fun p _ => p) (1 - (1/20)/2) ((20 : ℚ) - 1)
    ∧ ((fun p _ => p) ((1/20)/2) ((20 : ℚ) - 1) : ℚ)
        ≠ -((fun p _ => p) (1 - (1/20)/2) ((20 : ℚ) - 1)) :=
  by
  have h1 := spec_C8.1 id (fun p _ => p) 16 10 20 (1/20) (by norm_num) (by norm_num)
    (by norm_num) (by norm_num)
  have h2 := spec_C8.2 (fun p _ => p) 4 10 20 (1/20) (by norm_num) (by norm_num)
    (by norm_num) (by norm_num) (by norm_num)
  exact ⟨h1, h2.1, h2.2.1 (fun p q h => h), h2.2.2 (fun p h0 h1 => h0)⟩

/-- Counterexample to C6: the dual-mode one-sample t procedure accepts the
negative spread parameter `S = -1` (with otherwise valid inputs) and
returns a result instead of raising the invalid-spread error. -/
theorem spec_C6_counterexample :
    (HypCalc.test_mean_unknown_variance id (fun _ _ => 0) (some 1) (some (-1)) (some 5) (some 0)
        (some (1/20)) none).toOption.isSome = true := by
  norm_num [HypCalc.test_mean_unknown_variance, HypCalc.test_mean_unknown_variance_core,
    HypCalc.validate_alpha, HypCalc.validate_sample_size]
  rfl

/-- C6 amended: every test procedure of both variants rejects, before any
statistic is computed (the returned error is independent of the
distribution provider and of all other inputs), a significance level
outside `(0,1)` with the invalid-significance-level error and a sample
size `≤ 1` with the insufficient-sample-size error; the one-sample
variance tests reject a non-positive hypothesised null variance with the
invalid-null-variance error; the proportion tests reject proportions
outside `[0,1]` with the invalid-proportion error; and the procedures of
the per-tail-type variant reject a negative spread parameter with the
invalid-spread-parameter error.  The dual-mode variant's procedures,
however, perform no spread-sign validation (see the counterexample). -/
theorem spec_C6_amended :
    (∀ (sqrt : ℚ → ℚ) (tppf : ℚ → ℚ → ℚ) (xb sv : ℚ) (nv : ℕ) (mu a : ℚ), ¬(0 < a ∧ a < 1) →
      HypCalc.test_mean_unknown_variance sqrt tppf (some xb) (some sv) (some nv) (some mu) (some a) none = .error .invalidSignificanceLevel)
    ∧ (∀ (sqrt : ℚ → ℚ) (tppf : ℚ → ℚ → ℚ) (xb sv : ℚ) (nv : ℕ) (mu a : ℚ), 0 < a → a < 1 → nv < 2 →
      HypCalc.test_mean_unknown_variance sqrt tppf (some xb) (some sv) (some nv) (some mu) (some a) none = .error .insufficientSampleSize)
    ∧ (∀ (sqrt : ℚ → ℚ) (tppf : ℚ → ℚ → ℚ) (x1 x2 v1 v2 : ℚ) (m1 m2 : ℕ) (a : ℚ), ¬(0 < a ∧ a < 1) →
      HypCalc.test_diff_means_equal_variances sqrt tppf (some x1) (some x2) (some v1) (some v2)
        (some m1) (some m2) (some a) none none = .error .invalidSignificanceLevel)
    ∧ (∀ (sqrt : ℚ → ℚ) (tppf : ℚ → ℚ → ℚ) (x1 x2 v1 v2 : ℚ) (m1 m2 : ℕ) (a : ℚ), 0 < a → a < 1 → m1 < 2 ∨ m2 < 2 →
      HypCalc.test_diff_means_equal_variances sqrt tppf (some x1) (some x2) (some v1) (some v2)
        (some m1) (some m2) (some a) none none = .error .insufficientSampleSize)
    ∧ (∀ (sqrt : ℚ → ℚ) (tppf : ℚ → ℚ → ℚ) (x1 x2 v1 v2 : ℚ) (m1 m2 : ℕ) (a : ℚ), ¬(0 < a ∧ a < 1) →
      HypCalc.test_diff_means_welch sqrt tppf (some x1) (some x2) (some v1) (some v2)
        (some m1) (some m2) (some a) none none = .error .invalidSignificanceLevel)
    ∧ (∀ (sqrt : ℚ → ℚ) (tppf : ℚ → ℚ → ℚ) (x1 x2 v1 v2 : ℚ) (m1 m2 : ℕ) (a : ℚ), 0 < a → a < 1 → m1 < 2 ∨ m2 < 2 →
      HypCalc.test_diff_means_welch sqrt tppf (some x1) (some x2) (some v1) (some v2)
        (some m1) (some m2) (some a) none none = .error .insufficientSampleSize)
    ∧ (∀ (sqrt : ℚ → ℚ) (tppf : ℚ → ℚ → ℚ) (db sd : ℚ) (nv : ℕ) (delta a : ℚ), ¬(0 < a ∧ a < 1) →
      HypCalc.test_paired_samples sqrt tppf (some db) (some sd) (some nv) delta (some a) none = .error .invalidSignificanceLevel)
    ∧ (∀ (sqrt : ℚ → ℚ) (tppf : ℚ → ℚ → ℚ) (db sd : ℚ) (nv : ℕ) (delta a : ℚ), 0 < a → a < 1 → nv < 2 →
      HypCalc.test_paired_samples sqrt tppf (some db) (some sd) (some nv) delta (some a) none = .error .insufficientSampleSize)
    ∧ (∀ (sqrt normppf : ℚ → ℚ) (xb sg : ℚ) (nv : ℕ) (mu a : ℚ), ¬(0 < a ∧ a < 1) →
      HypCalc.test_mean_known_variance sqrt normppf (some xb) (some sg) (some nv) (some mu) (some a) none = .error .invalidSignificanceLevel)
    ∧ (∀ (sqrt normppf : ℚ → ℚ) (xb sg : ℚ) (nv : ℕ) (mu a : ℚ), 0 < a → a < 1 → nv < 2 →
      HypCalc.test_mean_known_variance sqrt normppf (some xb) (some sg) (some nv) (some mu) (some a) none = .error .insufficientSampleSize)
    ∧ (∀ (sqrt normppf : ℚ → ℚ) (ph p0 : ℚ) (nv : ℕ) (a : ℚ), ¬(0 < a ∧ a < 1) →
      HypCalc.test_proportion sqrt normppf (some ph) (some p0) (some nv) (some a) none = .error .invalidSignificanceLevel)
    ∧ (∀ (sqrt normppf : ℚ → ℚ) (ph p0 : ℚ) (nv : ℕ) (a : ℚ), 0 < a → a < 1 → nv < 2 →
      HypCalc.test_proportion sqrt normppf (some ph) (some p0) (some nv) (some a) none = .error .insufficientSampleSize)
    ∧ (∀ (sqrt normppf : ℚ → ℚ) (ph p0 : ℚ) (nv : ℕ) (a : ℚ), 0 < a → a < 1 → 2 ≤ nv →
      ¬(0 ≤ ph ∧ ph ≤ 1 ∧ 0 ≤ p0 ∧ p0 ≤ 1) →
      HypCalc.test_proportion sqrt normppf (some ph) (some p0) (some nv) (some a) none = .error .invalidProportion)
    ∧ (∀ (sqrt : ℚ → ℚ) (chi2ppf : ℚ → ℚ → ℚ) (v s0 : ℚ) (nv : ℕ) (a : ℚ), ¬(0 < a ∧ a < 1) →
      HypCalc.test_variance sqrt chi2ppf (some v) (some s0) (some nv) (some a) none = .error .invalidSignificanceLevel)
    ∧ (∀ (sqrt : ℚ → ℚ) (chi2ppf : ℚ → ℚ → ℚ) (v s0 : ℚ) (nv : ℕ) (a : ℚ), 0 < a → a < 1 → nv < 2 →
      HypCalc.test_variance sqrt chi2ppf (some v) (some s0) (some nv) (some a) none = .error .insufficientSampleSize)
    ∧ (∀ (sqrt : ℚ → ℚ) (chi2ppf : ℚ → ℚ → ℚ) (v s0 : ℚ) (nv : ℕ) (a : ℚ), 0 < a → a < 1 → 2 ≤ nv → s0 ≤ 0 →
      HypCalc.test_variance sqrt chi2ppf (some v) (some s0) (some nv) (some a) none = .error .invalidNullVariance)
    ∧ (∀ (sqrt normppf : ℚ → ℚ) (p1 p2 : ℚ) (m1 m2 : ℕ) (a : ℚ), ¬(0 < a ∧ a < 1) →
      HypCalc.test_diff_proportions sqrt normppf (some p1) (some p2) (some m1) (some m2) (some a)
        none none = .error .invalidSignificanceLevel)
    ∧ (∀ (sqrt normppf : ℚ → ℚ) (p1 p2 : ℚ) (m1 m2 : ℕ) (a : ℚ), 0 < a → a < 1 → m1 < 2 ∨ m2 < 2 →
      HypCalc.test_diff_proportions sqrt normppf (some p1) (some p2) (some m1) (some m2) (some a)
        none none = .error .insufficientSampleSize)
    ∧ (∀ (sqrt normppf : ℚ → ℚ) (p1 p2 : ℚ) (m1 m2 : ℕ) (a : ℚ), 0 < a → a < 1 → 2 ≤ m1 → 2 ≤ m2 →
      ¬(0 ≤ p1 ∧ p1 ≤ 1 ∧ 0 ≤ p2 ∧ p2 ≤ 1) →
      HypCalc.test_diff_proportions sqrt normppf (some p1) (some p2) (some m1) (some m2) (some a)
        none none = .error .invalidProportion)
    ∧ (∀ (sqrt : ℚ → ℚ) (fppf : ℚ → ℚ → ℚ → ℚ) (v1 v2 : ℚ) (m1 m2 : ℕ) (a : ℚ), ¬(0 < a ∧ a < 1) →
      HypCalc.test_diff_variances sqrt fppf (some v1) (some v2) (some m1) (some m2) (some a)
        none none = .error .invalidSignificanceLevel)
    ∧ (∀ (sqrt : ℚ → ℚ) (fppf : ℚ → ℚ → ℚ → ℚ) (v1 v2 : ℚ) (m1 m2 : ℕ) (a : ℚ), 0 < a → a < 1 → m1 < 2 ∨ m2 < 2 →
      HypCalc.test_diff_variances sqrt fppf (some v1) (some v2) (some m1) (some m2) (some a)
        none none = .error .insufficientSampleSize)
    ∧ (∀ (sqrt : ℚ → ℚ) (tppf : ℚ → ℚ → ℚ) (xb mu sv nv a : ℚ) (tipo : TipoTeste), nv ≤ 1 →
      Calc.t_media_var_desconhecida sqrt tppf xb mu sv nv a tipo = .error .insufficientSampleSize)
    ∧ (∀ (sqrt : ℚ → ℚ) (tppf : ℚ → ℚ → ℚ) (xb mu sv nv a : ℚ) (tipo : TipoTeste), 1 < nv → a ≤ 0 ∨ 1 ≤ a →
      Calc.t_media_var_desconhecida sqrt tppf xb mu sv nv a tipo = .error .invalidSignificanceLevel)
    ∧ (∀ (sqrt : ℚ → ℚ) (tppf : ℚ → ℚ → ℚ) (xb mu sv nv a : ℚ) (tipo : TipoTeste), 1 < nv → 0 < a → a < 1 → sv < 0 →
      Calc.t_media_var_desconhecida sqrt tppf xb mu sv nv a tipo = .error .invalidSpreadParameter)
    ∧ (∀ (sqrt normppf : ℚ → ℚ) (xb mu sg nv a : ℚ) (tipo : TipoTeste), nv ≤ 1 →
      Calc.z_media_var_conhecida sqrt normppf xb mu sg nv a tipo = .error .insufficientSampleSize)
    ∧ (∀ (sqrt normppf : ℚ → ℚ) (xb mu sg nv a : ℚ) (tipo : TipoTeste), 1 < nv → a ≤ 0 ∨ 1 ≤ a →
      Calc.z_media_var_conhecida sqrt normppf xb mu sg nv a tipo = .error .invalidSignificanceLevel)
    ∧ (∀ (sqrt normppf : ℚ → ℚ) (xb mu sg nv a : ℚ) (tipo : TipoTeste), 1 < nv → 0 < a → a < 1 → sg < 0 →
      Calc.z_media_var_conhecida sqrt normppf xb mu sg nv a tipo = .error .invalidSpreadParameter)
    ∧ (∀ (sqrt : ℚ → ℚ) (tppf : ℚ → ℚ → ℚ) (db delta sd nv a : ℚ) (tipo : TipoTeste), nv ≤ 1 →
      Calc.t_pareado sqrt tppf db delta sd nv a tipo = .error .insufficientSampleSize)
    ∧ (∀ (sqrt : ℚ → ℚ) (tppf : ℚ → ℚ → ℚ) (db delta sd nv a : ℚ) (tipo : TipoTeste), 1 < nv → a ≤ 0 ∨ 1 ≤ a →
      Calc.t_pareado sqrt tppf db delta sd nv a tipo = .error .invalidSignificanceLevel)
    ∧ (∀ (sqrt : ℚ → ℚ) (tppf : ℚ → ℚ → ℚ) (db delta sd nv a : ℚ) (tipo : TipoTeste), 1 < nv → 0 < a → a < 1 → sd < 0 →
      Calc.t_pareado sqrt tppf db delta sd nv a tipo = .error .invalidSpreadParameter)
    ∧ (∀ (chi2ppf : ℚ → ℚ → ℚ) (s s0 n a : ℚ) (tipo : TipoTeste), n ≤ 1 →
      Calc.chi2_variancia chi2ppf s s0 n a tipo = .error .insufficientSampleSize)
    ∧ (∀ (chi2ppf : ℚ → ℚ → ℚ) (s s0 n a : ℚ) (tipo : TipoTeste), 1 < n → a ≤ 0 ∨ 1 ≤ a →
      Calc.chi2_variancia chi2ppf s s0 n a tipo = .error .invalidSignificanceLevel)
    ∧ (∀ (chi2ppf : ℚ → ℚ → ℚ) (s s0 n a : ℚ) (tipo : TipoTeste), 1 < n → 0 < a → a < 1 → s < 0 →
      Calc.chi2_variancia chi2ppf s s0 n a tipo = .error .invalidSpreadParameter)
    ∧ (∀ (chi2ppf : ℚ → ℚ → ℚ) (s s0 n a : ℚ) (tipo : TipoTeste), 1 < n → 0 < a → a < 1 → 0 ≤ s → s0 ≤ 0 →
      Calc.chi2_variancia chi2ppf s s0 n a tipo = .error .invalidNullVariance)
    ∧ (∀ (sqrt normppf : ℚ → ℚ) (ph p0 nv a : ℚ) (tipo : TipoTeste), nv ≤ 1 →
      Calc.z_proporcao sqrt normppf ph p0 nv a tipo = .error .insufficientSampleSize)
    ∧ (∀ (sqrt normppf : ℚ → ℚ) (ph p0 nv a : ℚ) (tipo : TipoTeste), 1 < nv → a ≤ 0 ∨ 1 ≤ a →
      Calc.z_proporcao sqrt normppf ph p0 nv a tipo = .error .invalidSignificanceLevel)
    ∧ (∀ (sqrt normppf : ℚ → ℚ) (ph p0 nv a : ℚ) (tipo : TipoTeste), 1 < nv → 0 < a → a < 1 →
      ¬(0 ≤ ph ∧ ph ≤ 1 ∧ 0 ≤ p0 ∧ p0 ≤ 1) →
      Calc.z_proporcao sqrt normppf ph p0 nv a tipo = .error .invalidProportion)
    ∧ (∀ (sqrt : ℚ → ℚ) (tppf : ℚ → ℚ → ℚ) (x1 x2 s1 s2 n1 n2 a : ℚ) (tipo : TipoTeste), 0 < a → a < 1 → 0 ≤ s1 → n1 ≤ 1 ∨ n2 ≤ 1 →
      Calc.t_dif_medias_var_iguais sqrt tppf x1 x2 s1 s2 n1 n2 a tipo = .error .insufficientSampleSize)
    ∧ (∀ (sqrt : ℚ → ℚ) (tppf : ℚ → ℚ → ℚ) (x1 x2 s1 s2 n1 n2 a : ℚ) (tipo : TipoTeste), 1 < n1 → a ≤ 0 ∨ 1 ≤ a →
      Calc.t_dif_medias_var_iguais sqrt tppf x1 x2 s1 s2 n1 n2 a tipo = .error .invalidSignificanceLevel)
    ∧ (∀ (sqrt : ℚ → ℚ) (tppf : ℚ → ℚ → ℚ) (x1 x2 s1 s2 n1 n2 a : ℚ) (tipo : TipoTeste), 1 < n1 → 1 < n2 → 0 < a → a < 1 →
      s1 < 0 ∨ (0 ≤ s1 ∧ s2 < 0) →
      Calc.t_dif_medias_var_iguais sqrt tppf x1 x2 s1 s2 n1 n2 a tipo = .error .invalidSpreadParameter)
    ∧ (∀ (sqrt : ℚ → ℚ) (tppf : ℚ → ℚ → ℚ) (x1 x2 s1 s2 n1 n2 a : ℚ) (tipo : TipoTeste), 0 < a → a < 1 → 0 ≤ s1 → n1 ≤ 1 ∨ n2 ≤ 1 →
      Calc.t_welch_dif_medias sqrt tppf x1 x2 s1 s2 n1 n2 a tipo = .error .insufficientSampleSize)
    ∧ (∀ (sqrt : ℚ → ℚ) (tppf : ℚ → ℚ → ℚ) (x1 x2 s1 s2 n1 n2 a : ℚ) (tipo : TipoTeste), 1 < n1 → a ≤ 0 ∨ 1 ≤ a →
      Calc.t_welch_dif_medias sqrt tppf x1 x2 s1 s2 n1 n2 a tipo = .error .invalidSignificanceLevel)
    ∧ (∀ (sqrt : ℚ → ℚ) (tppf : ℚ → ℚ → ℚ) (x1 x2 s1 s2 n1 n2 a : ℚ) (tipo : TipoTeste), 1 < n1 → 1 < n2 → 0 < a → a < 1 →
      s1 < 0 ∨ (0 ≤ s1 ∧ s2 < 0) →
      Calc.t_welch_dif_medias sqrt tppf x1 x2 s1 s2 n1 n2 a tipo = .error .invalidSpreadParameter)
    ∧ (∀ (sqrt normppf : ℚ → ℚ) (x1 x2 s1 s2 n1 n2 a : ℚ) (tipo : TipoTeste), 0 < a → a < 1 → 0 ≤ s1 → n1 ≤ 1 ∨ n2 ≤ 1 →
      Calc.z_dif_medias_var_conhecidas sqrt normppf x1 x2 s1 s2 n1 n2 a tipo = .error .insufficientSampleSize)
    ∧ (∀ (sqrt normppf : ℚ → ℚ) (x1 x2 s1 s2 n1 n2 a : ℚ) (tipo : TipoTeste), 1 < n1 → a ≤ 0 ∨ 1 ≤ a →
      Calc.z_dif_medias_var_conhecidas sqrt normppf x1 x2 s1 s2 n1 n2 a tipo = .error .invalidSignificanceLevel)
    ∧ (∀ (sqrt normppf : ℚ → ℚ) (x1 x2 s1 s2 n1 n2 a : ℚ) (tipo : TipoTeste), 1 < n1 → 1 < n2 → 0 < a → a < 1 →
      s1 < 0 ∨ (0 ≤ s1 ∧ s2 < 0) →
      Calc.z_dif_medias_var_conhecidas sqrt normppf x1 x2 s1 s2 n1 n2 a tipo = .error .invalidSpreadParameter)
    ∧ (∀ (sqrt normppf : ℚ → ℚ) (p1 p2 n1 n2 a : ℚ) (tipo : TipoTeste), 0 < a → a < 1 → n1 ≤ 1 ∨ n2 ≤ 1 →
      Calc.z_dif_proporcoes sqrt normppf p1 p2 n1 n2 a tipo = .error .insufficientSampleSize)
    ∧ (∀ (sqrt normppf : ℚ → ℚ) (p1 p2 n1 n2 a : ℚ) (tipo : TipoTeste), 1 < n1 → a ≤ 0 ∨ 1 ≤ a →
      Calc.z_dif_proporcoes sqrt normppf p1 p2 n1 n2 a tipo = .error .invalidSignificanceLevel)
    ∧ (∀ (sqrt normppf : ℚ → ℚ) (p1 p2 n1 n2 a : ℚ) (tipo : TipoTeste), 1 < n1 → 1 < n2 → 0 < a → a < 1 →
      ¬(0 ≤ p1 ∧ p1 ≤ 1 ∧ 0 ≤ p2 ∧ p2 ≤ 1) →
      Calc.z_dif_proporcoes sqrt normppf p1 p2 n1 n2 a tipo = .error .invalidProportion)
    ∧ (∀ (fppf : ℚ → ℚ → ℚ → ℚ) (s1 s2 n1 n2 a : ℚ) (tipo : TipoTeste), tipo ≠ .unilateralEsq → 0 < a → a < 1 → 0 ≤ s1 → n1 ≤ 1 ∨ n2 ≤ 1 →
      Calc.f_dif_variancias fppf s1 s2 n1 n2 a tipo = .error .insufficientSampleSize)
    ∧ (∀ (fppf : ℚ → ℚ → ℚ → ℚ) (s1 s2 n1 n2 a : ℚ) (tipo : TipoTeste), tipo ≠ .unilateralEsq → 1 < n1 → a ≤ 0 ∨ 1 ≤ a →
      Calc.f_dif_variancias fppf s1 s2 n1 n2 a tipo = .error .invalidSignificanceLevel)
    ∧ (∀ (fppf : ℚ → ℚ → ℚ → ℚ) (s1 s2 n1 n2 a : ℚ) (tipo : TipoTeste), tipo ≠ .unilateralEsq → 1 < n1 → 1 < n2 → 0 < a → a < 1 →
      s1 < 0 ∨ (0 ≤ s1 ∧ s2 < 0) →
      Calc.f_dif_variancias fppf s1 s2 n1 n2 a tipo = .error .invalidSpreadParameter) := by
  refine ⟨?_, ?_, ?_, ?_, ?_, ?_, ?_, ?_, ?_, ?_, ?_, ?_, ?_, ?_, ?_, ?_, ?_, ?_, ?_, ?_, ?_, ?_, ?_, ?_, ?_, ?_, ?_, ?_, ?_, ?_, ?_, ?_, ?_, ?_, ?_, ?_, ?_, ?_, ?_, ?_, ?_, ?_, ?_, ?_, ?_, ?_, ?_, ?_, ?_, ?_, ?_, ?_⟩
  · intro sqrt tppf xb sv nv mu a h
    simp [HypCalc.test_mean_unknown_variance, HypCalc.test_mean_unknown_variance_core, HypCalc.validate_alpha_err a h]
  · intro sqrt tppf xb sv nv mu a h0 h1 hn
    simp [HypCalc.test_mean_unknown_variance, HypCalc.test_mean_unknown_variance_core, HypCalc.validate_alpha_ok a h0 h1, HypCalc.validate_sample_size_err nv hn]
  · intro sqrt tppf x1 x2 v1 v2 m1 m2 a h
    simp [HypCalc.test_diff_means_equal_variances, HypCalc.test_diff_means_equal_variances_core, HypCalc.validate_alpha_err a h]
  · intro sqrt tppf x1 x2 v1 v2 m1 m2 a h0 h1 h
    by_cases hm : m1 < 2
    · simp [HypCalc.test_diff_means_equal_variances, HypCalc.test_diff_means_equal_variances_core, HypCalc.validate_alpha_ok a h0 h1, HypCalc.validate_sample_size_err m1 hm]
    · have hm1 : 2 ≤ m1 := by omega
      rcases h with h | h
      · exact absurd h hm
      · simp [HypCalc.test_diff_means_equal_variances, HypCalc.test_diff_means_equal_variances_core, HypCalc.validate_alpha_ok a h0 h1, HypCalc.validate_sample_size_ok m1 hm1,
          HypCalc.validate_sample_size_err m2 h]
  · intro sqrt tppf x1 x2 v1 v2 m1 m2 a h
    simp [HypCalc.test_diff_means_welch, HypCalc.test_diff_means_welch_core, HypCalc.validate_alpha_err a h]
  · intro sqrt tppf x1 x2 v1 v2 m1 m2 a h0 h1 h
    by_cases hm : m1 < 2
    · simp [HypCalc.test_diff_means_welch, HypCalc.test_diff_means_welch_core, HypCalc.validate_alpha_ok a h0 h1, HypCalc.validate_sample_size_err m1 hm]
    · have hm1 : 2 ≤ m1 := by omega
      rcases h with h | h
      · exact absurd h hm
      · simp [HypCalc.test_diff_means_welch, HypCalc.test_diff_means_welch_core, HypCalc.validate_alpha_ok a h0 h1, HypCalc.validate_sample_size_ok m1 hm1,
          HypCalc.validate_sample_size_err m2 h]
  · intro sqrt tppf db sd nv delta a h
    simp [HypCalc.test_paired_samples, HypCalc.test_paired_samples_core, HypCalc.validate_alpha_err a h]
  · intro sqrt tppf db sd nv delta a h0 h1 hn
    simp [HypCalc.test_paired_samples, HypCalc.test_paired_samples_core, HypCalc.validate_alpha_ok a h0 h1, HypCalc.validate_sample_size_err nv hn]
  · intro sqrt normppf xb sg nv mu a h
    simp [HypCalc.test_mean_known_variance, HypCalc.test_mean_known_variance_core, HypCalc.validate_alpha_err a h]
  · intro sqrt normppf xb sg nv mu a h0 h1 hn
    simp [HypCalc.test_mean_known_variance, HypCalc.test_mean_known_variance_core, HypCalc.validate_alpha_ok a h0 h1, HypCalc.validate_sample_size_err nv hn]
  · intro sqrt normppf ph p0 nv a h
    simp [HypCalc.test_proportion, HypCalc.test_proportion_core, HypCalc.validate_alpha_err a h]
  · intro sqrt normppf ph p0 nv a h0 h1 hn
    simp [HypCalc.test_proportion, HypCalc.test_proportion_core, HypCalc.validate_alpha_ok a h0 h1, HypCalc.validate_sample_size_err nv hn]
  · intro sqrt normppf ph p0 nv a h0 h1 hn h
    simp [HypCalc.test_proportion, HypCalc.test_proportion_core, HypCalc.validate_alpha_ok a h0 h1, HypCalc.validate_sample_size_ok nv hn, h]
  · intro sqrt chi2ppf v s0 nv a h
    simp [HypCalc.test_variance, HypCalc.test_variance_core, HypCalc.validate_alpha_err a h]
  · intro sqrt chi2ppf v s0 nv a h0 h1 hn
    simp [HypCalc.test_variance, HypCalc.test_variance_core, HypCalc.validate_alpha_ok a h0 h1, HypCalc.validate_sample_size_err nv hn]
  · intro sqrt chi2ppf v s0 nv a h0 h1 hn hs0
    simp [HypCalc.test_variance, HypCalc.test_variance_core, HypCalc.validate_alpha_ok a h0 h1, HypCalc.validate_sample_size_ok nv hn, hs0]
  · intro sqrt normppf p1 p2 m1 m2 a h
    simp [HypCalc.test_diff_proportions, HypCalc.test_diff_proportions_core, HypCalc.validate_alpha_err a h]
  · intro sqrt normppf p1 p2 m1 m2 a h0 h1 h
    by_cases hm : m1 < 2
    · simp [HypCalc.test_diff_proportions, HypCalc.test_diff_proportions_core, HypCalc.validate_alpha_ok a h0 h1, HypCalc.validate_sample_size_err m1 hm]
    · have hm1 : 2 ≤ m1 := by omega
      rcases h with h | h
      · exact absurd h hm
      · simp [HypCalc.test_diff_proportions, HypCalc.test_diff_proportions_core, HypCalc.validate_alpha_ok a h0 h1, HypCalc.validate_sample_size_ok m1 hm1,
          HypCalc.validate_sample_size_err m2 h]
  · intro sqrt normppf p1 p2 m1 m2 a h0 h1 hm1 hm2 h
    simp [HypCalc.test_diff_proportions, HypCalc.test_diff_proportions_core, HypCalc.validate_alpha_ok a h0 h1, HypCalc.validate_sample_size_ok m1 hm1,
      HypCalc.validate_sample_size_ok m2 hm2, h]
  · intro sqrt fppf v1 v2 m1 m2 a h
    simp [HypCalc.test_diff_variances, HypCalc.test_diff_variances_core, HypCalc.validate_alpha_err a h]
  · intro sqrt fppf v1 v2 m1 m2 a h0 h1 h
    by_cases hm : m1 < 2
    · simp [HypCalc.test_diff_variances, HypCalc.test_diff_variances_core, HypCalc.validate_alpha_ok a h0 h1, HypCalc.validate_sample_size_err m1 hm]
    · have hm1 : 2 ≤ m1 := by omega
      rcases h with h | h
      · exact absurd h hm
      · simp [HypCalc.test_diff_variances, HypCalc.test_diff_variances_core, HypCalc.validate_alpha_ok a h0 h1, HypCalc.validate_sample_size_ok m1 hm1,
          HypCalc.validate_sample_size_err m2 h]
  · intro sqrt tppf xb mu sv nv a tipo hn
    simp [Calc.t_media_var_desconhecida, Calc.validar_parametros_err_n nv (some a) (some sv) hn]
  · intro sqrt tppf xb mu sv nv a tipo hn ha
    simp [Calc.t_media_var_desconhecida, Calc.validar_parametros_err_alpha nv a (some sv) hn ha]
  · intro sqrt tppf xb mu sv nv a tipo hn h0 h1 hs
    simp [Calc.t_media_var_desconhecida, Calc.validar_parametros_err_s nv a sv hn h0 h1 hs]
  · intro sqrt normppf xb mu sg nv a tipo hn
    simp [Calc.z_media_var_conhecida, Calc.validar_parametros_err_n nv (some a) (some sg) hn]
  · intro sqrt normppf xb mu sg nv a tipo hn ha
    simp [Calc.z_media_var_conhecida, Calc.validar_parametros_err_alpha nv a (some sg) hn ha]
  · intro sqrt normppf xb mu sg nv a tipo hn h0 h1 hs
    simp [Calc.z_media_var_conhecida, Calc.validar_parametros_err_s nv a sg hn h0 h1 hs]
  · intro sqrt tppf db delta sd nv a tipo hn
    simp [Calc.t_pareado, Calc.validar_parametros_err_n nv (some a) (some sd) hn]
  · intro sqrt tppf db delta sd nv a tipo hn ha
    simp [Calc.t_pareado, Calc.validar_parametros_err_alpha nv a (some sd) hn ha]
  · intro sqrt tppf db delta sd nv a tipo hn h0 h1 hs
    simp [Calc.t_pareado, Calc.validar_parametros_err_s nv a sd hn h0 h1 hs]
  · intro chi2ppf s s0 n a tipo hn
    simp [Calc.chi2_variancia, Calc.validar_parametros_err_n n (some a) (some s) hn]
  · intro chi2ppf s s0 n a tipo hn ha
    simp [Calc.chi2_variancia, Calc.validar_parametros_err_alpha n a (some s) hn ha]
  · intro chi2ppf s s0 n a tipo hn h0 h1 hs
    simp [Calc.chi2_variancia, Calc.validar_parametros_err_s n a s hn h0 h1 hs]
  · intro chi2ppf s s0 n a tipo hn h0 h1 hs hs0
    simp [Calc.chi2_variancia, Calc.validar_parametros_ok n a s hn h0 h1 hs, hs0]
  · intro sqrt normppf ph p0 nv a tipo hn
    simp [Calc.z_proporcao, Calc.validar_parametros_err_n nv (some a) none hn]
  · intro sqrt normppf ph p0 nv a tipo hn ha
    simp [Calc.z_proporcao, Calc.validar_parametros_err_alpha nv a none hn ha]
  · intro sqrt normppf ph p0 nv a tipo hn h0 h1 h
    simp [Calc.z_proporcao, Calc.validar_parametros_ok_sem_s nv a hn h0 h1, h]
  · intro sqrt tppf x1 x2 s1 s2 n1 n2 a tipo h0 h1 hs1 h
    by_cases hn1 : n1 ≤ 1
    · simp [Calc.t_dif_medias_var_iguais, Calc.validar_parametros_err_n n1 (some a) (some s1) hn1]
    · push_neg at hn1
      rcases h with h | h
      · exact absurd h (not_le.mpr hn1)
      · simp [Calc.t_dif_medias_var_iguais, Calc.validar_parametros_ok n1 a s1 hn1 h0 h1 hs1,
          Calc.validar_parametros_err_n n2 (some a) (some s2) h]
  · intro sqrt tppf x1 x2 s1 s2 n1 n2 a tipo hn1 ha
    simp [Calc.t_dif_medias_var_iguais, Calc.validar_parametros_err_alpha n1 a (some s1) hn1 ha]
  · intro sqrt tppf x1 x2 s1 s2 n1 n2 a tipo hn1 hn2 h0 h1 h
    rcases h with h | ⟨hs1, hs2⟩
    · simp [Calc.t_dif_medias_var_iguais, Calc.validar_parametros_err_s n1 a s1 hn1 h0 h1 h]
    · simp [Calc.t_dif_medias_var_iguais, Calc.validar_parametros_ok n1 a s1 hn1 h0 h1 hs1,
        Calc.validar_parametros_err_s n2 a s2 hn2 h0 h1 hs2]
  · intro sqrt tppf x1 x2 s1 s2 n1 n2 a tipo h0 h1 hs1 h
    by_cases hn1 : n1 ≤ 1
    · simp [Calc.t_welch_dif_medias, Calc.validar_parametros_err_n n1 (some a) (some s1) hn1]
    · push_neg at hn1
      rcases h with h | h
      · exact absurd h (not_le.mpr hn1)
      · simp [Calc.t_welch_dif_medias, Calc.validar_parametros_ok n1 a s1 hn1 h0 h1 hs1,
          Calc.validar_parametros_err_n n2 (some a) (some s2) h]
  · intro sqrt tppf x1 x2 s1 s2 n1 n2 a tipo hn1 ha
    simp [Calc.t_welch_dif_medias, Calc.validar_parametros_err_alpha n1 a (some s1) hn1 ha]
  · intro sqrt tppf x1 x2 s1 s2 n1 n2 a tipo hn1 hn2 h0 h1 h
    rcases h with h | ⟨hs1, hs2⟩
    · simp [Calc.t_welch_dif_medias, Calc.validar_parametros_err_s n1 a s1 hn1 h0 h1 h]
    · simp [Calc.t_welch_dif_medias, Calc.validar_parametros_ok n1 a s1 hn1 h0 h1 hs1,
        Calc.validar_parametros_err_s n2 a s2 hn2 h0 h1 hs2]
  · intro sqrt normppf x1 x2 s1 s2 n1 n2 a tipo h0 h1 hs1 h
    by_cases hn1 : n1 ≤ 1
    · simp [Calc.z_dif_medias_var_conhecidas, Calc.validar_parametros_err_n n1 (some a) (some s1) hn1]
    · push_neg at hn1
      rcases h with h | h
      · exact absurd h (not_le.mpr hn1)
      · simp [Calc.z_dif_medias_var_conhecidas, Calc.validar_parametros_ok n1 a s1 hn1 h0 h1 hs1,
          Calc.validar_parametros_err_n n2 (some a) (some s2) h]
  · intro sqrt normppf x1 x2 s1 s2 n1 n2 a tipo hn1 ha
    simp [Calc.z_dif_medias_var_conhecidas, Calc.validar_parametros_err_alpha n1 a (some s1) hn1 ha]
  · intro sqrt normppf x1 x2 s1 s2 n1 n2 a tipo hn1 hn2 h0 h1 h
    rcases h with h | ⟨hs1, hs2⟩
    · simp [Calc.z_dif_medias_var_conhecidas, Calc.validar_parametros_err_s n1 a s1 hn1 h0 h1 h]
    · simp [Calc.z_dif_medias_var_conhecidas, Calc.validar_parametros_ok n1 a s1 hn1 h0 h1 hs1,
        Calc.validar_parametros_err_s n2 a s2 hn2 h0 h1 hs2]
  · intro sqrt normppf p1 p2 n1 n2 a tipo h0 h1 h
    by_cases hn1 : n1 ≤ 1
    · simp [Calc.z_dif_proporcoes, Calc.validar_parametros_err_n n1 (some a) none hn1]
    · push_neg at hn1
      rcases h with h | h
      · exact absurd h (not_le.mpr hn1)
      · simp [Calc.z_dif_proporcoes, Calc.validar_parametros_ok_sem_s n1 a hn1 h0 h1,
          Calc.validar_parametros_err_n n2 (some a) none h]
  · intro sqrt normppf p1 p2 n1 n2 a tipo hn1 ha
    simp [Calc.z_dif_proporcoes, Calc.validar_parametros_err_alpha n1 a none hn1 ha]
  · intro sqrt normppf p1 p2 n1 n2 a tipo hn1 hn2 h0 h1 h
    simp [Calc.z_dif_proporcoes, Calc.validar_parametros_ok_sem_s n1 a hn1 h0 h1,
      Calc.validar_parametros_ok_sem_s n2 a hn2 h0 h1, h]
  · intro fppf s1 s2 n1 n2 a tipo ht h0 h1 hs1 h
    by_cases hn1 : n1 ≤ 1
    · simp [Calc.f_dif_variancias, ht, Calc.validar_parametros_err_n n1 (some a) (some s1) hn1]
    · push_neg at hn1
      rcases h with h | h
      · exact absurd h (not_le.mpr hn1)
      · simp [Calc.f_dif_variancias, ht, Calc.validar_parametros_ok n1 a s1 hn1 h0 h1 hs1,
          Calc.validar_parametros_err_n n2 (some a) (some s2) h]
  · intro fppf s1 s2 n1 n2 a tipo ht hn1 ha
    simp [Calc.f_dif_variancias, ht, Calc.validar_parametros_err_alpha n1 a (some s1) hn1 ha]
  · intro fppf s1 s2 n1 n2 a tipo ht hn1 hn2 h0 h1 h
    rcases h with h | ⟨hs1, hs2⟩
    · simp [Calc.f_dif_variancias, ht, Calc.validar_parametros_err_s n1 a s1 hn1 h0 h1 h]
    · simp [Calc.f_dif_variancias, ht, Calc.validar_parametros_ok n1 a s1 hn1 h0 h1 hs1,
        Calc.validar_parametros_err_s n2 a s2 hn2 h0 h1 hs2]


/-- Witness for the amended C6, one concrete rejection per error kind:
`α = 2`, `n = 1`, `p̂ = 2`, `σ₀² = 0` on the dual-mode procedures and
`S = -1` on the per-tail-type one-sample t procedure. -/
theorem spec_C6_amended_witness :
    HypCalc.test_mean_unknown_variance id (fun _ _ => 0) (some 1) (some 1) (some 5) (some 0)
        (some 2) none = .error .invalidSignificanceLevel
    ∧ HypCalc.test_mean_unknown_variance id (fun _ _ => 0) (some 1) (some 1) (some 1) (some 0)
        (some (1/20)) none = .error .insufficientSampleSize
    ∧ HypCalc.test_proportion id (fun _ => 0) (some 2) (some (1/2)) (some 5) (some (1/20)) none
        = .error .invalidProportion
    ∧ HypCalc.test_variance id (fun _ _ => 0) (some 16) (some 0) (some 5) (some (1/20)) none
        = .error .invalidNullVariance
    ∧ Calc.t_media_var_desconhecida id (fun _ _ => 0) 0 0 (-1) 5 (1/20) .bilateral
        = .error .invalidSpreadParameter := by
  obtain ⟨h1, h2, -, -, -, -, -, -, -, -, -, -, h13, -, -, h16, -, -, -, -, -, -, -, h24, -, -,
    -, -, -, -, -, -, -, -, -, -, -, -, -, -, -, -, -, -, -, -, -, -, -, -, -, -⟩ :=
    spec_C6_amended
  exact ⟨h1 id (fun _ _ => 0) 1 1 5 0 2 (by norm_num),
    h2 id (fun _ _ => 0) 1 1 1 0 (1/20) (by norm_num) (by norm_num) (by norm_num),
    h13 id (fun _ => 0) 2 (1/2) 5 (1/20) (by norm_num) (by norm_num) (by norm_num) (by norm_num),
    h16 id (fun _ _ => 0) 16 0 5 (1/20) (by norm_num) (by norm_num) (by norm_num) (by norm_num),
    h24 id (fun _ _ => 0) 0 0 (-1) 5 (1/20) .bilateral (by norm_num) (by norm_num) (by norm_num)
      (by norm_num)⟩
